import Mathlib

/-!
Verification development for the GameDev server-side simulation.

The JavaScript sources are embedded shallowly over the rationals.  Floating
point numbers are idealized as rationals; the transcendental primitives the
code calls (Math.sin, Math.cos, Math.hypot, Math.PI) are threaded through a
Trig parameter record so that every definition stays computable and every
theorem quantifies over the trig implementation.  World queries performed by
the physics engine (ray casts against level geometry, body lists) are
modelled as an oracle record WorldEnv, since their results depend on level
data outside the simulated player.  The operative PlayerSim revision is the
final one in the file (the one producing knockback-carrying damage events
consumed by LobbyRoom).
-/

namespace GameDev

/-- Math.max(min, Math.min(max, x)), the clamp helper of PlayerSim.js. -/
def clamp (x lo hi : ℚ) : ℚ := max lo (min hi x)

/-- JS ToInt32 wrapping (the bitwise-or-zero coercion). -/
def int32 (n : ℤ) : ℤ := (n + 2 ^ 31) % 2 ^ 32 - 2 ^ 31

/-- JS number-to-integer truncation toward zero, used by ToInt32. -/
def jsTrunc (q : ℚ) : ℤ := if 0 ≤ q then ⌊q⌋ else ⌈q⌉

/-- Math.sign. -/
def jsSign (q : ℚ) : ℚ := if 0 < q then 1 else if q < 0 then -1 else 0

/-- The transcendental primitives used by the simulation code.  Real
execution uses IEEE doubles; theorems below hold for any implementation. -/
structure Trig where
  sin : ℚ → ℚ
  cos : ℚ → ℚ
  hypot : ℚ → ℚ → ℚ
  atan2 : ℚ → ℚ → ℚ
  pi : ℚ

/-- rotateXY of PlayerSim.js: rotate the vector (x, y) by angleRad. -/
def rotateXY (t : Trig) (x y angleRad : ℚ) : ℚ × ℚ :=
  (x * t.cos angleRad - y * t.sin angleRad,
   x * t.sin angleRad + y * t.cos angleRad)

/-- wrapRadPi of PlayerSim.js: repeatedly subtract or add two pi until the
angle lies in the closed band from minus pi to pi.  The source uses a while
loop; this is its closed form, where the ceiling counts the iterations the
loop performs. -/
def wrapRadPi (t : Trig) (a : ℚ) : ℚ :=
  if t.pi < a then a - 2 * t.pi * (⌈(a - t.pi) / (2 * t.pi)⌉ : ℤ)
  else if a < -t.pi then a + 2 * t.pi * (⌈(-t.pi - a) / (2 * t.pi)⌉ : ℤ)
  else a

namespace Sim

/- Constants of the operative PlayerSim.js revision. -/
def PPM : ℚ := 30
def PLAYER_HALF_H_PX : ℚ := 90
def FOOT_HALF_W_PX : ℚ := 22
def BALANCE_KP : ℚ := 2000
def BALANCE_KD : ℚ := 200
def BALANCE_MAX_TORQUE : ℚ := 3500
def AIR_BALANCE_MULT : ℚ := 0.04
def TILT_ENABLED : Bool := true
def TILT_PIVOT_FOLLOW : ℚ := 1.0
def TILT_PAST_MAX_EPS_RAD : ℚ := 0.001
def JUMP_SPEED_PX_PER_SEC : ℚ := 950
def MOUSE_GRAB_RADIUS_PX : ℚ := 140
def GROUND_GRACE_TIME_SEC : ℚ := 0.06
def CORNER_GRACE_TIME_SEC : ℚ := 0.06
def JUMP_STABILIZE_TIME_SEC : ℚ := 0.10
def ARM_SHOULDER_LOCAL_X_PX : ℚ := -8
def ARM_SHOULDER_LOCAL_Y_PX : ℚ := -25
def ARM_H_PX : ℚ := 70
def ARM_HALF_H_PX : ℚ := 35
def BEAM_DEFAULT_MUZZLE_NORM_X : ℚ := 0.98
def BEAM_DEFAULT_MUZZLE_NORM_Y : ℚ := 0.5
def DEFAULT_AUTO_AIM_SPEED_DEG_PER_SEC : ℚ := 540
def AUTO_AIM_TARGET_Y_OFFSET_PX : ℚ := -35

def TILT_MAX_ANGLE_RAD (t : Trig) : ℚ := 50.3 * t.pi / 180
def MAX_JUMP_ANGLE_RAD (t : Trig) : ℚ := 80 * t.pi / 180
def TILT_ROTATE_SPEED_RAD_PER_SEC (t : Trig) : ℚ := 180 * t.pi / 180

def pxToM (px : ℚ) : ℚ := px / PPM
def mToPx (m : ℚ) : ℚ := m * PPM

/-- A weapon catalog entry.  JS catalog objects may omit fields; omitted
fields read as undefined, so every field is an Option and the nullish
defaults of the use sites are applied exactly where the source applies
them. -/
structure GunDef where
  ammo : Option ℚ
  timeBetweenShots : Option ℚ
  automatic : Option Bool
  bulletEnabled : Option Bool
  damage : Option ℚ
  bulletMaxDistancePx : Option ℚ
  bulletWidthPx : Option ℚ
  bulletLifetimeSec : Option ℚ
  bulletTailLengthPx : Option ℚ
  bulletColor : Option ℚ
  deathKnockbackPxPerSec : Option ℚ
  deathKnockbackUpPxPerSec : Option ℚ
  heldWpx : Option ℚ
  heldHpx : Option ℚ
  heldOriginX : Option ℚ
  heldOriginY : Option ℚ
  heldAlongArmOffsetPx : Option ℚ
  heldSideOffsetPx : Option ℚ
  heldAngleOffsetRad : Option ℚ
  heldFlipWithPlayer : Option Bool
  bulletMuzzleNormX : Option ℚ
  bulletMuzzleNormY : Option ℚ
  aimRadiusPx : Option ℚ
  autoAimSpeedDegPerSec : Option ℚ
  pickupRadiusPx : Option ℚ
  respawnSec : Option ℚ
  fireSoundKey : Option String
  reloadSoundKey : Option String
  fireToReloadDelaySec : Option ℚ

/-- The sniper entry of the server gunCatalog.js (held-pose fields present,
damage and rate fields absent in that file). -/
def sniperDef (t : Trig) : GunDef where
  ammo := some 5
  timeBetweenShots := none
  automatic := none
  bulletEnabled := some true
  damage := none
  bulletMaxDistancePx := some 2200
  bulletWidthPx := some 10
  bulletLifetimeSec := some 0.05
  bulletTailLengthPx := some 200
  bulletColor := some 16777215
  deathKnockbackPxPerSec := none
  deathKnockbackUpPxPerSec := none
  heldWpx := some 160
  heldHpx := some 48
  heldOriginX := some 0.19
  heldOriginY := some 0.8
  heldAlongArmOffsetPx := some (-12)
  heldSideOffsetPx := some 0
  heldAngleOffsetRad := some (t.pi / 2)
  heldFlipWithPlayer := some true
  bulletMuzzleNormX := some 0.98
  bulletMuzzleNormY := some 0.5
  aimRadiusPx := none
  autoAimSpeedDegPerSec := none
  pickupRadiusPx := some 80
  respawnSec := some 6
  fireSoundKey := some "sniper_fire_snd"
  reloadSoundKey := some "sniper_reload_snd"
  fireToReloadDelaySec := some 0.5

/-- GUN_CATALOG of the server gunCatalog.js as a lookup function. -/
def GUN_CATALOG (t : Trig) : String → Option GunDef :=
  fun gunId => if gunId = "sniper" then some (sniperDef t) else none

/-- Discrete events a PlayerSim tick can emit (the shot beam descriptor and
the damage record carrying knockback parameters). -/
inductive GameEvent where
  | shot (sx sy ex ey widthPx lifeSec tailLenPx color : ℚ)
  | damage (toSid : String) (amount : ℚ) (srcSid : String) (gunId : String)
      (kx ky kb kbu : ℚ)
  deriving DecidableEq

def isShot : GameEvent → Bool
  | GameEvent.shot _ _ _ _ _ _ _ _ => true
  | _ => false

def countShots (evs : List GameEvent) : ℕ := (evs.filter isShot).length

/-- The mutable per-player simulation state owned by one PlayerSim instance,
with the planck main body and swing-arm body flattened into fields.  The
torque field records the torque accumulated via applyTorque for the next
world step. -/
structure PlayerSimState where
  sessionId : String
  facingDir : ℤ
  prevFacingDir : ℤ
  gunId : String
  ammo : ℤ
  lastFireSeq : ℤ
  fireHeld : Bool
  simTimeMs : ℚ
  nextShotMs : ℚ
  dead : Bool
  touchingGround : Bool
  groundGraceTimer : ℚ
  prevTiltDir : ℤ
  activePivotSide : ℤ
  holdPastMaxActive : Bool
  holdPastMaxAngleRad : ℚ
  leftCornerGrace : ℚ
  rightCornerGrace : ℚ
  justJumpedTimer : ℚ
  isDragging : Bool
  hasMouseJoint : Bool
  mouseTarget : Option (ℚ × ℚ)
  posX : ℚ
  posY : ℚ
  angle : ℚ
  velX : ℚ
  velY : ℚ
  angVel : ℚ
  torque : ℚ
  hasArm : Bool
  armPosX : ℚ
  armPosY : ℚ
  armAngle : ℚ
  armVelX : ℚ
  armVelY : ℚ
  armAngVel : ℚ
  deriving DecidableEq

/-- body.getWorldPoint for the main body. -/
def getWorldPoint (t : Trig) (s : PlayerSimState) (lx ly : ℚ) : ℚ × ℚ :=
  (s.posX + (rotateXY t lx ly s.angle).1, s.posY + (rotateXY t lx ly s.angle).2)

/-- armBody.getWorldPoint. -/
def armGetWorldPoint (t : Trig) (s : PlayerSimState) (lx ly : ℚ) : ℚ × ℚ :=
  (s.armPosX + (rotateXY t lx ly s.armAngle).1,
   s.armPosY + (rotateXY t lx ly s.armAngle).2)

/-- armTopLocalM is always Vec2(0, -armHalfHm) once the arm exists. -/
def armTopLocalYm : ℚ := -(pxToM ARM_HALF_H_PX)

def playerBottomLocalYm : ℚ := pxToM PLAYER_HALF_H_PX

/-- The PlayerSim constructor state (body at the given pixel position, no
gun, alive, arm freshly attached at the shoulder). -/
def mkPlayerSim (t : Trig) (sessionId : String) (startXpx startYpx : ℚ) :
    PlayerSimState :=
  let posX := pxToM startXpx
  let posY := pxToM startYpx
  let shoulder :=
    (posX + pxToM (ARM_SHOULDER_LOCAL_X_PX * 1), posY + pxToM ARM_SHOULDER_LOCAL_Y_PX)
  { sessionId := sessionId
    facingDir := 1
    prevFacingDir := 1
    gunId := ""
    ammo := 0
    lastFireSeq := 0
    fireHeld := false
    simTimeMs := 0
    nextShotMs := 0
    dead := false
    touchingGround := false
    groundGraceTimer := 0
    prevTiltDir := 0
    activePivotSide := 0
    holdPastMaxActive := false
    holdPastMaxAngleRad := 0
    leftCornerGrace := 0
    rightCornerGrace := 0
    justJumpedTimer := 0
    isDragging := false
    hasMouseJoint := false
    mouseTarget := none
    posX := posX
    posY := posY
    angle := 0
    velX := 0
    velY := 0
    angVel := 0
    torque := 0
    hasArm := true
    armPosX := shoulder.1 - (rotateXY t 0 armTopLocalYm 0).1
    armPosY := shoulder.2 - (rotateXY t 0 armTopLocalYm 0).2
    armAngle := 0
    armVelX := 0
    armVelY := 0
    armAngVel := 0 }

/-- dropGun of the operative revision. -/
def dropGun (s : PlayerSimState) : PlayerSimState :=
  { s with gunId := "", ammo := 0, nextShotMs := s.simTimeMs, fireHeld := false }

/-- giveGun: clamp the catalog ammo into the 0..127 range of the uint8 wire
field and allow an immediate shot. -/
def giveGun (catalog : String → Option GunDef) (gunId : String)
    (s : PlayerSimState) : Bool × PlayerSimState :=
  match catalog gunId with
  | none => (false, s)
  | some def_ =>
      (true,
        { s with
          gunId := gunId
          ammo := max 0 (min 127 (int32 (jsTrunc (def_.ammo.getD 0))))
          nextShotMs := s.simTimeMs
          fireHeld := false })

/-- endMouseDrag: release the drag joint if present. -/
def endMouseDrag (s : PlayerSimState) : PlayerSimState :=
  if s.isDragging then
    { s with isDragging := false, hasMouseJoint := false, mouseTarget := none }
  else s

/-- startMouseDrag: grab only within the fixed grab radius of the body. -/
def startMouseDrag (worldXpx worldYpx : ℚ) (s : PlayerSimState) : PlayerSimState :=
  if s.isDragging then s
  else
    let bpx := mToPx s.posX
    let bpy := mToPx s.posY
    let dx := worldXpx - bpx
    let dy := worldYpx - bpy
    if MOUSE_GRAB_RADIUS_PX * MOUSE_GRAB_RADIUS_PX < dx * dx + dy * dy then s
    else
      { s with
        isDragging := true
        hasMouseJoint := true
        mouseTarget := some (pxToM worldXpx, pxToM worldYpx) }

/-- The per-tick input message after LobbyRoom's bitmask decode.  Missing
drag coordinates are modelled as none (a non-finite Number in the source). -/
structure InputMsg where
  tiltLeft : Bool
  tiltRight : Bool
  dragActive : Bool
  dragX : Option ℚ
  dragY : Option ℚ
  fireSeq : ℤ
  fireHeld : Bool
  deriving DecidableEq

/-- updateMouseDrag: create, retarget, or release the drag joint from the
latest input. -/
def updateMouseDrag (input? : Option InputMsg) (s : PlayerSimState) : PlayerSimState :=
  let wantDrag := match input? with
    | none => false
    | some i => i.dragActive
  if !wantDrag then endMouseDrag s
  else
    match input?.bind (fun i => i.dragX), input?.bind (fun i => i.dragY) with
    | some tx, some ty =>
        let s1 := if !s.isDragging || !s.hasMouseJoint then startMouseDrag tx ty s else s
        if s1.isDragging && s1.hasMouseJoint then
          { s1 with mouseTarget := some (pxToM tx, pxToM ty) }
        else s1
    | _, _ => endMouseDrag s

/-- computePDTorqueWrapped: clamped proportional-derivative torque toward
the target angle on the wrapped angle error. -/
def computePDTorqueWrapped (t : Trig) (s : PlayerSimState)
    (targetAngleRad kp kd maxTorque : ℚ) : ℚ :=
  let angle := wrapRadPi t s.angle
  let angVel := s.angVel
  let err := wrapRadPi t (targetAngleRad - angle)
  let torque := kp * err - kd * angVel
  clamp torque (-maxTorque) maxTorque

/-- Contact point under the foot: clamped to a grounded corner, rolling
between the corners with angle when both are grounded, the center when
neither is. -/
def contactLocalXForAngleM (t : Trig) (angleRad : ℚ)
    (leftGrounded rightGrounded : Bool) : ℚ :=
  let halfWm := pxToM FOOT_HALF_W_PX
  if leftGrounded && !rightGrounded then -halfWm
  else if rightGrounded && !leftGrounded then halfWm
  else if leftGrounded && rightGrounded then
    clamp (angleRad / TILT_MAX_ANGLE_RAD t) (-1) 1 * halfWm
  else 0

/-- applyTiltPinnedToFootContact: rotate the body to the target angle while
keeping the current foot contact point fixed; keep horizontal velocity,
zero vertical and angular velocity. -/
def applyTiltPinnedToFootContact (t : Trig) (angleNow angleTarget : ℚ)
    (leftGrounded rightGrounded : Bool) (s : PlayerSimState) : PlayerSimState :=
  let localY := playerBottomLocalYm
  let localXNow := contactLocalXForAngleM t angleNow leftGrounded rightGrounded
  let localXTarget := contactLocalXForAngleM t angleTarget leftGrounded rightGrounded
  let anchorWorld := getWorldPoint t s localXNow localY
  let rotatedTarget := rotateXY t localXTarget localY angleTarget
  let posPerfectX := anchorWorld.1 - rotatedTarget.1
  let posPerfectY := anchorWorld.2 - rotatedTarget.2
  let a := clamp TILT_PIVOT_FOLLOW 0 1
  let posNewX := s.posX + (posPerfectX - s.posX) * a
  let posNewY := s.posY + (posPerfectY - s.posY) * a
  { s with
    posX := posNewX
    posY := posNewY
    angle := angleTarget
    angVel := 0
    velY := 0
    activePivotSide :=
      if 0.000001 < |localXTarget| then (if 0 < localXTarget then 1 else -1)
      else (if 0 ≤ angleTarget then 1 else -1) }

/-- doTiltReleaseJump: no jump past the too-tilted threshold; otherwise a
velocity impulse whose direction comes from the current wrapped lean
angle. -/
def doTiltReleaseJump (t : Trig) (s : PlayerSimState) : Bool × PlayerSimState :=
  let angleNow := wrapRadPi t s.angle
  if MAX_JUMP_ANGLE_RAD t < |angleNow| then (false, s)
  else
    let angForJump := clamp angleNow (-(t.pi / 2)) (t.pi / 2)
    let jumpSpeedMps := pxToM JUMP_SPEED_PX_PER_SEC
    (true,
      { s with
        velX := t.sin angForJump * jumpSpeedMps
        velY := -(t.cos angForJump) * jumpSpeedMps
        angVel := 0
        groundGraceTimer := 0
        touchingGround := false
        justJumpedTimer := JUMP_STABILIZE_TIME_SEC })

/-- getArmPosePx: world position of the arm top anchor in pixels plus the
arm angle, available while the arm body exists. -/
def getArmPosePx (t : Trig) (s : PlayerSimState) : Option (ℚ × ℚ × ℚ) :=
  if s.hasArm then
    let topWorld := armGetWorldPoint t s 0 armTopLocalYm
    some (mToPx topWorld.1, mToPx topWorld.2, s.armAngle)
  else none

/-- The held-gun pose record computed by computeGunPosePx. -/
structure GunPose where
  gunX : ℚ
  gunY : ℚ
  gunA : ℚ
  gunFlip : Bool
  originX : ℚ
  originY : ℚ
  w : ℚ
  h : ℚ
  muzzleNx : ℚ
  muzzleNy : ℚ
  deriving DecidableEq

/-- computeGunPosePx of the operative revision (hand point from the arm
pose, mirrored side and angle offsets from the catalog entry). -/
def computeGunPosePx (t : Trig) (catalog : String → Option GunDef)
    (s : PlayerSimState) : Option GunPose :=
  if s.gunId = "" then none
  else
    match catalog s.gunId with
    | none => none
    | some def_ =>
        match getArmPosePx t s with
        | none => none
        | some (topX, topY, a) =>
            let downX := -(t.sin a)
            let downY := t.cos a
            let rightX := t.cos a
            let rightY := t.sin a
            let handX := topX + downX * ARM_H_PX
            let handY := topY + downY * ARM_H_PX
            let flipPlayer := s.facingDir = -1
            let flipWith := def_.heldFlipWithPlayer ≠ some false
            let gunFlip := flipWith && flipPlayer
            let mirrorDir : ℚ := if flipWith && gunFlip then -1 else 1
            let along := def_.heldAlongArmOffsetPx.getD 0
            let sideBase := def_.heldSideOffsetPx.getD 0
            let side := sideBase * mirrorDir
            let gunX := handX + downX * along + rightX * side
            let gunY := handY + downY * along + rightY * side
            let angOff := def_.heldAngleOffsetRad.getD 0
            let gunA := a + angOff * mirrorDir
            let baseOX := def_.heldOriginX.getD 0.2
            let baseOY := def_.heldOriginY.getD 0.5
            let originX := if flipWith && gunFlip then 1 - baseOX else baseOX
            some
              { gunX := gunX
                gunY := gunY
                gunA := gunA
                gunFlip := gunFlip
                originX := originX
                originY := baseOY
                w := def_.heldWpx.getD 110
                h := def_.heldHpx.getD 28
                muzzleNx := def_.bulletMuzzleNormX.getD BEAM_DEFAULT_MUZZLE_NORM_X
                muzzleNy := def_.bulletMuzzleNormY.getD BEAM_DEFAULT_MUZZLE_NORM_Y }

/-- computeGunMuzzleWorldPx: rotate the muzzle offset into world space. -/
def computeGunMuzzleWorldPx (t : Trig) (catalog : String → Option GunDef)
    (s : PlayerSimState) : Option (ℚ × ℚ) :=
  match computeGunPosePx t catalog s with
  | none => none
  | some pose =>
      let nxEff := if pose.gunFlip then 1 - pose.muzzleNx else pose.muzzleNx
      let localX := (nxEff - pose.originX) * pose.w
      let localY := (pose.muzzleNy - pose.originY) * pose.h
      let c := t.cos pose.gunA
      let si := t.sin pose.gunA
      some (pose.gunX + localX * c - localY * si,
            pose.gunY + localX * si + localY * c)

/-- getGunForwardUnit: the mirrored gun-angle direction, normalized. -/
def getGunForwardUnit (t : Trig) (catalog : String → Option GunDef)
    (s : PlayerSimState) : Option (ℚ × ℚ) :=
  match computeGunPosePx t catalog s with
  | none => none
  | some pose =>
      let mirror : ℚ := if pose.gunFlip then -1 else 1
      let dx := t.cos pose.gunA * mirror
      let dy := t.sin pose.gunA * mirror
      let len0 := t.hypot dx dy
      let len := if len0 = 0 then 1 else len0
      some (dx / len, dy / len)

/-- Results the physics world returns to one applyInput call.  Ray casts
and the body list depend on the level geometry and the other players, both
outside this player's state, so they enter as an oracle. -/
structure WorldEnv where
  rawGrounded : Bool
  cornerLeftHit : Bool
  cornerRightHit : Bool
  beamHit : Option ((ℚ × ℚ) × Option String)
  autoAimTarget : Option (ℚ × ℚ)

/-- raycastBeamHitPx: the closest non-sensor hit (oracle), or the
maximum-range endpoint when nothing obstructs the beam. -/
def raycastBeamHitPx (env : WorldEnv) (startPx : ℚ × ℚ) (dirUnit : ℚ × ℚ)
    (maxDistPx : ℚ) : (ℚ × ℚ) × Option String :=
  match env.beamHit with
  | some (pt, sid) => (pt, sid)
  | none =>
      ((startPx.1 + dirUnit.1 * maxDistPx, startPx.2 + dirUnit.2 * maxDistPx), none)

/-- createSwingArm: a fresh arm body anchored at the facing-mirrored
shoulder point, starting at the body angle with zero velocity. -/
def createSwingArm (t : Trig) (s : PlayerSimState) : PlayerSimState :=
  let shoulderLocalXpx := ARM_SHOULDER_LOCAL_X_PX * (s.facingDir : ℚ)
  let shoulderWorld :=
    getWorldPoint t s (pxToM shoulderLocalXpx) (pxToM ARM_SHOULDER_LOCAL_Y_PX)
  let startAngle := s.angle
  let topOffsetRot := rotateXY t 0 armTopLocalYm startAngle
  { s with
    hasArm := true
    armPosX := shoulderWorld.1 - topOffsetRot.1
    armPosY := shoulderWorld.2 - topOffsetRot.2
    armAngle := startAngle
    armVelX := 0
    armVelY := 0
    armAngVel := 0 }

/-- rebuildArmForFacingPreserveAngle: re-anchor the arm at the mirrored
shoulder while keeping its world angle and velocities. -/
def rebuildArmForFacingPreserveAngle (t : Trig) (s : PlayerSimState) : PlayerSimState :=
  if !s.hasArm then createSwingArm t s
  else
    let keepAngle := s.armAngle
    let shoulderLocalXpx := ARM_SHOULDER_LOCAL_X_PX * (s.facingDir : ℚ)
    let shoulderWorld :=
      getWorldPoint t s (pxToM shoulderLocalXpx) (pxToM ARM_SHOULDER_LOCAL_Y_PX)
    let topOffsetRot := rotateXY t 0 armTopLocalYm keepAngle
    { s with
      armPosX := shoulderWorld.1 - topOffsetRot.1
      armPosY := shoulderWorld.2 - topOffsetRot.2
      armAngle := keepAngle }

/-- getArmPivotWorldM: the shoulder pivot.  The source prefers the revolute
joint anchor and falls back to the arm-top world point; the joint constrains
the two to coincide, so the fallback form is used. -/
def getArmPivotWorldM (t : Trig) (s : PlayerSimState) : Option (ℚ × ℚ) :=
  if s.hasArm then some (armGetWorldPoint t s 0 armTopLocalYm) else none

/-- updateAutoAim: rotate the arm toward the oracle-provided target at the
catalog aim speed.  A no-op without a gun, an arm, or a positive aim
radius. -/
def updateAutoAim (t : Trig) (catalog : String → Option GunDef) (env : WorldEnv)
    (fixedDt : ℚ) (s : PlayerSimState) : PlayerSimState :=
  if s.gunId = "" then s
  else if !s.hasArm then s
  else
    match catalog s.gunId with
    | none => s
    | some def_ =>
        let radiusPx := def_.aimRadiusPx.getD 0
        if radiusPx ≤ 0 then s
        else
          let speedDegPerSec := def_.autoAimSpeedDegPerSec.getD DEFAULT_AUTO_AIM_SPEED_DEG_PER_SEC
          let speedRadPerSec := speedDegPerSec * t.pi / 180
          match getArmPivotWorldM t s with
          | none => s
          | some pivotM =>
              let pivotPx := (mToPx pivotM.1, mToPx pivotM.2)
              match env.autoAimTarget with
              | none => s
              | some target =>
                  let dx := target.1 - pivotPx.1
                  let dy := target.2 - pivotPx.2
                  let dist := t.hypot dx dy
                  if dist < 0.001 then s
                  else
                    let desiredDown := t.atan2 dy dx
                    let desiredArmA := wrapRadPi t (desiredDown - t.pi / 2)
                    let curA := wrapRadPi t s.armAngle
                    let err := wrapRadPi t (desiredArmA - curA)
                    let maxStep := speedRadPerSec * max 0 fixedDt
                    let step := clamp err (-maxStep) maxStep
                    let nextA := wrapRadPi t (curA + step)
                    let rTop := rotateXY t 0 armTopLocalYm nextA
                    { s with
                      armPosX := pivotM.1 - rTop.1
                      armPosY := pivotM.2 - rTop.2
                      armAngle := nextA
                      armAngVel := 0
                      armVelX := s.velX
                      armVelY := s.velY }

/-- tryFireOnce of the operative revision: a shot attempt needs a catalog
entry, ammo, an enabled bullet, and the rate limit elapsed; on success it
decrements ammo, emits the beam event (plus a damage event on a hit of
another player), schedules the next allowed shot, and drops the gun when
the last round was spent. -/
def tryFireOnce (t : Trig) (catalog : String → Option GunDef) (env : WorldEnv)
    (def? : Option GunDef) (timeBetweenShotsMs : ℚ) (s : PlayerSimState) :
    Bool × PlayerSimState × List GameEvent :=
  match def? with
  | none => (false, s, [])
  | some def_ =>
      if s.ammo ≤ 0 then (false, s, [])
      else if !(def_.bulletEnabled.getD false) then (false, s, [])
      else if s.simTimeMs < s.nextShotMs then (false, s, [])
      else
        let gunIdFired := s.gunId
        let s1 := { s with ammo := max 0 (int32 (s.ammo - 1)) }
        let muzzle? := computeGunMuzzleWorldPx t catalog s1
        let dir? := getGunForwardUnit t catalog s1
        let events :=
          match muzzle?, dir? with
          | some muzzle, some dir =>
              let maxDistPx := max 10 (def_.bulletMaxDistancePx.getD 2200)
              let hit := raycastBeamHitPx env muzzle dir maxDistPx
              let shotEv := GameEvent.shot muzzle.1 muzzle.2 hit.1.1 hit.1.2
                (def_.bulletWidthPx.getD 10) (def_.bulletLifetimeSec.getD 0.05)
                (def_.bulletTailLengthPx.getD 200) (def_.bulletColor.getD 16777215)
              let dmg := def_.damage.getD 0
              match hit.2 with
              | some target =>
                  if 0 < dmg ∧ target ≠ "" ∧ target ≠ s1.sessionId then
                    [shotEv,
                      GameEvent.damage target dmg s1.sessionId gunIdFired
                        dir.1 dir.2 (def_.deathKnockbackPxPerSec.getD 0)
                        (def_.deathKnockbackUpPxPerSec.getD 0)]
                  else [shotEv]
              | none => [shotEv]
          | _, _ => []
        let s2 := { s1 with nextShotMs := s1.simTimeMs + timeBetweenShotsMs }
        let s3 := if s2.ammo ≤ 0 then dropGun s2 else s2
        (true, s3, events)

/-- The gun section of applyInput: the fire-sequence edge always attempts
one shot; an automatic weapon with the held flag attempts another only if
the edge attempt did not fire. -/
def gunStage (t : Trig) (catalog : String → Option GunDef) (env : WorldEnv)
    (input? : Option InputMsg) (s : PlayerSimState) :
    PlayerSimState × List GameEvent :=
  let def? := catalog s.gunId
  let timeBetweenShotsMs := max 0 ((def?.bind (fun d => d.timeBetweenShots)).getD 0)
  let isAutomatic := (def?.bind (fun d => d.automatic)).getD false
  let s0 := { s with
    fireHeld := match input? with | none => false | some i => i.fireHeld }
  let fireSeq := int32 (match input? with | none => 0 | some i => i.fireSeq)
  let edge := fireSeq ≠ s0.lastFireSeq
  let (fired1, s1, evs1) :=
    if edge then
      tryFireOnce t catalog env def? timeBetweenShotsMs { s0 with lastFireSeq := fireSeq }
    else (false, s0, [])
  if !fired1 && isAutomatic && s1.fireHeld then
    let r := tryFireOnce t catalog env def? timeBetweenShotsMs s1
    (r.2.1, evs1 ++ r.2.2)
  else (s1, evs1)

/-- Reset of the tilt bookkeeping fields repeated through the movement
section. -/
def resetTiltState (s : PlayerSimState) : PlayerSimState :=
  { s with
    prevTiltDir := 0
    activePivotSide := 0
    holdPastMaxActive := false
    leftCornerGrace := 0
    rightCornerGrace := 0 }

/-- The auto-balance tail of the movement section: grounded and not tilting
applies the clamped PD torque toward target angle 0, then prevTiltDir is
recorded. -/
def balanceTail (t : Trig) (tiltDir : ℤ) (s : PlayerSimState) : PlayerSimState :=
  let s1 :=
    if s.touchingGround && decide (s.prevTiltDir = 0) then
      let airMult := if 0 < s.justJumpedTimer then 0 else AIR_BALANCE_MULT
      let groundedMult := if s.touchingGround then 1 else airMult
      let torque := computePDTorqueWrapped t s 0 (BALANCE_KP * groundedMult)
        (BALANCE_KD * groundedMult) BALANCE_MAX_TORQUE
      { s with torque := s.torque + torque }
    else s
  { s1 with prevTiltDir := tiltDir }

/-- The tilt-hold branch: corner grace smoothing, angle stepped toward the
held maximum lean, hold-past-max bookkeeping, then the pinned rotation. -/
def tiltHold (t : Trig) (env : WorldEnv) (fixedDt : ℚ) (tiltDir : ℤ)
    (s : PlayerSimState) : PlayerSimState :=
  let angleNow := wrapRadPi t s.angle
  let s1 := { s with
    leftCornerGrace :=
      if env.cornerLeftHit then CORNER_GRACE_TIME_SEC
      else max 0 (s.leftCornerGrace - fixedDt)
    rightCornerGrace :=
      if env.cornerRightHit then CORNER_GRACE_TIME_SEC
      else max 0 (s.rightCornerGrace - fixedDt) }
  let leftGrounded := 0 < s1.leftCornerGrace
  let rightGrounded := 0 < s1.rightCornerGrace
  let wantAngle := clamp ((tiltDir : ℚ) * TILT_MAX_ANGLE_RAD t)
    (-(TILT_MAX_ANGLE_RAD t)) (TILT_MAX_ANGLE_RAD t)
  let diff := wrapRadPi t (wantAngle - angleNow)
  let step := clamp diff (-(TILT_ROTATE_SPEED_RAD_PER_SEC t * fixedDt))
    (TILT_ROTATE_SPEED_RAD_PER_SEC t * fixedDt)
  let angleTarget := wrapRadPi t (angleNow + step)
  let atMax := TILT_MAX_ANGLE_RAD t - TILT_PAST_MAX_EPS_RAD ≤ |angleTarget|
  let s2 :=
    if atMax then { s1 with holdPastMaxActive := true, holdPastMaxAngleRad := angleTarget }
    else if s1.holdPastMaxActive && decide (jsSign angleTarget ≠ jsSign s1.holdPastMaxAngleRad) then
      { s1 with holdPastMaxActive := false }
    else s1
  let s3 := applyTiltPinnedToFootContact t angleNow angleTarget leftGrounded rightGrounded s2
  { s3 with prevTiltDir := tiltDir }

/-- The movement section of applyInput (dragging skips tilt and balance;
release of a held tilt jumps; holding tilts; otherwise balance). -/
def movementStage (t : Trig) (env : WorldEnv) (input? : Option InputMsg)
    (fixedDt : ℚ) (s : PlayerSimState) : PlayerSimState :=
  if s.isDragging then resetTiltState s
  else
    match input? with
    | none => s
    | some input =>
        let tiltDir : ℤ :=
          (if input.tiltLeft then -1 else 0) + (if input.tiltRight then 1 else 0)
        let tiltAllowedNow := TILT_ENABLED && s.touchingGround
        let s1 := if !tiltAllowedNow then resetTiltState s else s
        if tiltAllowedNow && decide (s1.prevTiltDir ≠ 0) && decide (tiltDir = 0) then
          let r := doTiltReleaseJump t s1
          let s2 := resetTiltState r.2
          if r.1 then s2 else balanceTail t tiltDir s2
        else if tiltAllowedNow && decide (tiltDir ≠ 0) then
          tiltHold t env fixedDt tiltDir s1
        else balanceTail t tiltDir s1

/-- The facing update at the top of applyInput: tilt input resolves the
facing direction, and a change re-anchors the arm preserving its angle. -/
def facingStage (t : Trig) (input? : Option InputMsg) (s : PlayerSimState) :
    PlayerSimState :=
  match input? with
  | none => s
  | some input =>
      let leftDown := input.tiltLeft
      let rightDown := input.tiltRight
      let s1 :=
        if leftDown && !rightDown then { s with facingDir := -1 }
        else if rightDown && !leftDown then { s with facingDir := 1 }
        else s
      if s1.facingDir ≠ s1.prevFacingDir then
        rebuildArmForFacingPreserveAngle t { s1 with prevFacingDir := s1.facingDir }
      else s1

/-- Ground grace and the jump-stabilize timer decay. -/
def groundStage (env : WorldEnv) (fixedDt : ℚ) (s : PlayerSimState) :
    PlayerSimState :=
  let s1 :=
    if env.rawGrounded then { s with groundGraceTimer := GROUND_GRACE_TIME_SEC }
    else { s with groundGraceTimer := max 0 (s.groundGraceTimer - fixedDt) }
  let s2 := { s1 with touchingGround := 0 < s1.groundGraceTimer }
  { s2 with justJumpedTimer := max 0 (s2.justJumpedTimer - fixedDt) }

/-- The state after the pre-gun stages of applyInput (time bump, facing,
grounding, drag, auto-aim), named so the stage lemmas below can speak about
it. -/
def preGunState (t : Trig) (catalog : String → Option GunDef) (env : WorldEnv)
    (input? : Option InputMsg) (fixedDt : ℚ) (s : PlayerSimState) : PlayerSimState :=
  updateAutoAim t catalog env fixedDt
    (updateMouseDrag input?
      (groundStage env fixedDt
        (facingStage t input?
          { s with simTimeMs := s.simTimeMs + max 0 fixedDt * 1000 })))

/-- applyInput of the operative PlayerSim revision, called once per fixed
tick before the world step.  Returns the updated state and the events the
tick emitted. -/
def applyInput (t : Trig) (catalog : String → Option GunDef) (env : WorldEnv)
    (input? : Option InputMsg) (fixedDt : ℚ) (s : PlayerSimState) :
    PlayerSimState × List GameEvent :=
  let s0 := { s with simTimeMs := s.simTimeMs + max 0 fixedDt * 1000 }
  if s0.dead then
    let s1 := endMouseDrag s0
    ({ s1 with
        fireHeld := false
        lastFireSeq := int32 (match input? with | none => 0 | some i => i.fireSeq) },
      [])
  else
    let s1 := facingStage t input? s0
    let s2 := groundStage env fixedDt s1
    let s3 := updateMouseDrag input? s2
    let s4 := updateAutoAim t catalog env fixedDt s3
    let r := gunStage t catalog env input? s4
    (movementStage t env input? fixedDt r.1, r.2)

end Sim

namespace Room

/- Constants of LobbyRoom.js. -/
def SERVER_TICK_HZ : ℚ := 60
def MAX_CATCHUP_STEPS : ℕ := 10
def FIXED_DT_MS : ℚ := 1000 / SERVER_TICK_HZ
def DEFAULT_MAX_HEALTH : ℚ := 100
def DEATH_RAGDOLL_SEC : ℚ := 2.0

/-- Replicated per-player health record (PlayerState health fields). -/
structure PlayerHP where
  health : ℚ
  maxHealth : ℚ
  dead : Bool
  deriving DecidableEq

/-- The room-level health state: replicated player records plus the pending
death-respawn timers (milliseconds until the scheduled respawn fires). -/
structure RoomHealth where
  players : String → Option PlayerHP
  respawnTimerMs : String → Option ℚ

def setPlayer (m : RoomHealth) (sid : String) (v : Option PlayerHP) : RoomHealth :=
  { m with players := fun x => if x = sid then v else m.players x }

def setTimer (m : RoomHealth) (sid : String) (v : Option ℚ) : RoomHealth :=
  { m with respawnTimerMs := fun x => if x = sid then v else m.respawnTimerMs x }

/-- The PlayerState a joining client receives. -/
def joinPlayerHP : PlayerHP :=
  { health := DEFAULT_MAX_HEALTH, maxHealth := DEFAULT_MAX_HEALTH, dead := false }

/-- killPlayer: zero health, set the dead flag, and schedule the respawn
after the fixed ragdoll duration.  (The paired sim.setDead ragdoll call
mutates PlayerSim state, not the replicated record.)  A repeated kill on an
already-dead player is a no-op. -/
def killPlayer (m : RoomHealth) (sid : String) : RoomHealth :=
  match m.players sid with
  | none => m
  | some st =>
      if st.dead then m
      else
        let m1 := setPlayer m sid (some { st with health := 0, dead := true })
        setTimer m1 sid (some (max 0.05 DEATH_RAGDOLL_SEC * 1000))

/-- The damage fields of an event as LobbyRoom reads them. -/
structure DamageMsg where
  toSid : String
  amount : ℚ
  deriving DecidableEq

/-- One iteration of the damage-application loop of fixedStep: clamp the
damage below by 0, reduce health clamped at 0, and kill on reaching 0. -/
def applyDamageEvent (m : RoomHealth) (e : DamageMsg) : RoomHealth :=
  if e.toSid = "" then m
  else
    match m.players e.toSid with
    | none => m
    | some st =>
        if st.dead then m
        else
          let dmg := max 0 e.amount
          let hpNew := max 0 (st.health - dmg)
          let m1 := setPlayer m e.toSid (some { st with health := hpNew })
          if hpNew ≤ 0 then killPlayer m1 e.toSid else m1

/-- Stage 2.5 of fixedStep: apply every accumulated damage event in order. -/
def applyDamageEvents (m : RoomHealth) (evs : List DamageMsg) : RoomHealth :=
  evs.foldl applyDamageEvent m

/-- respawnPlayer: clear the timer, restore full health, clear the dead
flag (the paired sim.respawnAt teleports the body). -/
def respawnPlayer (m : RoomHealth) (sid : String) : RoomHealth :=
  let m0 := setTimer m sid none
  match m0.players sid with
  | none => m0
  | some st =>
      let mh := if st.maxHealth = 0 then DEFAULT_MAX_HEALTH else st.maxHealth
      setPlayer m0 sid (some { health := mh, maxHealth := mh, dead := false })

/-- The catch-up loop of simLoop with the remaining step allowance as fuel:
run one fixed step and subtract one tick while the accumulator holds a full
tick, counting the steps run. -/
def runCatchupSteps : ℕ → ℚ → ℕ × ℚ
  | 0, accMs => (0, accMs)
  | n + 1, accMs =>
      if FIXED_DT_MS ≤ accMs then
        let r := runCatchupSteps n (accMs - FIXED_DT_MS)
        (r.1 + 1, r.2)
      else (0, accMs)

/-- simLoop of LobbyRoom.js: cap the elapsed wall-clock time, accumulate,
run at most MAX_CATCHUP_STEPS fixed steps, and discard the backlog when the
cap was reached.  Returns the number of fixed steps run and the new
accumulator. -/
def simLoop (accMs frameMsRaw : ℚ) : ℕ × ℚ :=
  let frameMs := if 250 < frameMsRaw then 250 else frameMsRaw
  let acc1 := accMs + frameMs
  let r := runCatchupSteps MAX_CATCHUP_STEPS acc1
  (r.1, if r.1 = MAX_CATCHUP_STEPS then 0 else r.2)

/-- checkpointOrderFromBaseId: the first run of decimal digits in the id,
or none when the id has no digits (parseInt of no match is NaN). -/
def firstDigitRun : List Char → Option (List Char)
  | [] => none
  | c :: cs =>
      if c.isDigit then some (c :: cs.takeWhile Char.isDigit)
      else firstDigitRun cs

def digitsToNat (ds : List Char) : ℕ :=
  ds.foldl (fun n c => 10 * n + (c.toNat - 48)) 0

def checkpointOrderFromBaseId (s : String) : Option ℕ :=
  (firstDigitRun s.toList).map digitsToNat

/-- The JS less-than on strings: lexicographic comparison of code units. -/
def charListLt : List Char → List Char → Bool
  | [], [] => false
  | [], _ :: _ => true
  | _ :: _, [] => false
  | a :: as, b :: bs =>
      if a.val < b.val then true
      else if b.val < a.val then false
      else charListLt as bs

def jsStringLt (a b : String) : Bool := charListLt a.toList b.toList

/-- shouldUpgradeCheckpoint: first checkpoint always records; equal ids do
not; numeric orders compare numerically; otherwise the ids compare as
strings. -/
def shouldUpgradeCheckpoint (curBaseId newBaseId : String) : Bool :=
  if newBaseId = "" then false
  else if curBaseId = "" then true
  else if curBaseId = newBaseId then false
  else
    match checkpointOrderFromBaseId curBaseId, checkpointOrderFromBaseId newBaseId with
    | some curOrder, some newOrder => decide (curOrder < newOrder)
    | _, _ => jsStringLt curBaseId newBaseId

/-- One player's checkpoint bookkeeping (playerCheckpointBaseId and
playerRespawnBySid entries). -/
structure CpPlayer where
  recorded : Option String
  respawn : ℚ × ℚ
  deriving DecidableEq

/-- tryActivateCheckpoint for one player: only ids with a registered spawn
count, and the recorded id is replaced only when shouldUpgradeCheckpoint
accepts it.  Returns the new record and the broadcast payload, if any. -/
def tryActivateCheckpoint (spawns : String → Option (ℚ × ℚ))
    (defaultBaseId : String) (sid baseId : String) (st : CpPlayer) :
    CpPlayer × Option (String × ℚ × ℚ) :=
  if sid = "" || baseId = "" then (st, none)
  else
    match spawns baseId with
    | none => (st, none)
    | some spawn =>
        let cur := match st.recorded with
          | some r => r
          | none => defaultBaseId
        if shouldUpgradeCheckpoint cur baseId then
          ({ recorded := some baseId, respawn := spawn }, some (baseId, spawn))
        else (st, none)

/-- A whole match's worth of activations for one player, folded in order. -/
def activateAll (spawns : String → Option (ℚ × ℚ)) (defaultBaseId sid : String)
    (st : CpPlayer) (ids : List String) : CpPlayer :=
  ids.foldl (fun st b => (tryActivateCheckpoint spawns defaultBaseId sid b st).1) st

end Room

namespace MM

/-- MATCH_SIZE of the 4-player MatchmakingRoom revision. -/
def MATCH_SIZE : ℕ := 4

/-- A queued client (Colyseus client handle reduced to its session id; an
invalid handle reads as the empty id). -/
structure MMClient where
  sessionId : String
  deriving DecidableEq

/-- One iteration of the match-formation loop of _tryMakeMatch, run under
the room lock.  The provision oracle gives the new room id or none when
createRoom throws; the reserveOk oracle tells which seat reservations
succeed.  Returns the new waiting list, the matchFound sends performed (in
order, as session id and room id), and whether the while loop keeps
iterating. -/
def tryMakeMatchStep (provision : Option String) (reserveOk : String → Bool)
    (waiting : List MMClient) :
    List MMClient × List (String × String) × Bool :=
  if waiting.length < MATCH_SIZE then (waiting, [], false)
  else
    let group := waiting.take MATCH_SIZE
    let rest := waiting.drop MATCH_SIZE
    let live := group.filter (fun c => c.sessionId ≠ "")
    if live.length < MATCH_SIZE then (live ++ rest, [], false)
    else
      match provision with
      | none => (live ++ rest, [], false)
      | some roomId =>
          let r := live.foldl
            (fun (acc : List MMClient × List (String × String)) c =>
              if reserveOk c.sessionId then
                (acc.1, acc.2 ++ [(c.sessionId, roomId)])
              else (c :: acc.1, acc.2))
            (rest, [])
          (r.1, r.2, true)

end MM

/-! ## Supporting lemmas -/

namespace Sim

theorem facingStage_preserves (t : Trig) (i? : Option InputMsg) (s : PlayerSimState) :
    (facingStage t i? s).gunId = s.gunId ∧
    (facingStage t i? s).ammo = s.ammo ∧
    (facingStage t i? s).lastFireSeq = s.lastFireSeq ∧
    (facingStage t i? s).fireHeld = s.fireHeld ∧
    (facingStage t i? s).simTimeMs = s.simTimeMs ∧
    (facingStage t i? s).nextShotMs = s.nextShotMs ∧
    (facingStage t i? s).sessionId = s.sessionId ∧
    (facingStage t i? s).dead = s.dead ∧
    (facingStage t i? s).isDragging = s.isDragging ∧
    (facingStage t i? s).hasMouseJoint = s.hasMouseJoint ∧
    (facingStage t i? s).touchingGround = s.touchingGround ∧
    (facingStage t i? s).groundGraceTimer = s.groundGraceTimer ∧
    (facingStage t i? s).prevTiltDir = s.prevTiltDir ∧
    (facingStage t i? s).activePivotSide = s.activePivotSide ∧
    (facingStage t i? s).holdPastMaxActive = s.holdPastMaxActive ∧
    (facingStage t i? s).holdPastMaxAngleRad = s.holdPastMaxAngleRad ∧
    (facingStage t i? s).leftCornerGrace = s.leftCornerGrace ∧
    (facingStage t i? s).rightCornerGrace = s.rightCornerGrace ∧
    (facingStage t i? s).justJumpedTimer = s.justJumpedTimer ∧
    (facingStage t i? s).posX = s.posX ∧
    (facingStage t i? s).posY = s.posY ∧
    (facingStage t i? s).angle = s.angle ∧
    (facingStage t i? s).velX = s.velX ∧
    (facingStage t i? s).velY = s.velY ∧
    (facingStage t i? s).angVel = s.angVel ∧
    (facingStage t i? s).torque = s.torque ∧
    (s.hasArm = true → (facingStage t i? s).hasArm = true) := by
  cases i? with
  | none => simp [facingStage]
  | some i =>
      simp only [facingStage, rebuildArmForFacingPreserveAngle, createSwingArm]
      split_ifs <;> simp_all

theorem groundStage_preserves (env : WorldEnv) (dt : ℚ) (s : PlayerSimState) :
    (groundStage env dt s).gunId = s.gunId ∧
    (groundStage env dt s).ammo = s.ammo ∧
    (groundStage env dt s).lastFireSeq = s.lastFireSeq ∧
    (groundStage env dt s).fireHeld = s.fireHeld ∧
    (groundStage env dt s).simTimeMs = s.simTimeMs ∧
    (groundStage env dt s).nextShotMs = s.nextShotMs ∧
    (groundStage env dt s).sessionId = s.sessionId ∧
    (groundStage env dt s).dead = s.dead ∧
    (groundStage env dt s).isDragging = s.isDragging ∧
    (groundStage env dt s).hasMouseJoint = s.hasMouseJoint ∧
    (groundStage env dt s).prevTiltDir = s.prevTiltDir ∧
    (groundStage env dt s).activePivotSide = s.activePivotSide ∧
    (groundStage env dt s).holdPastMaxActive = s.holdPastMaxActive ∧
    (groundStage env dt s).holdPastMaxAngleRad = s.holdPastMaxAngleRad ∧
    (groundStage env dt s).leftCornerGrace = s.leftCornerGrace ∧
    (groundStage env dt s).rightCornerGrace = s.rightCornerGrace ∧
    (groundStage env dt s).posX = s.posX ∧
    (groundStage env dt s).posY = s.posY ∧
    (groundStage env dt s).angle = s.angle ∧
    (groundStage env dt s).velX = s.velX ∧
    (groundStage env dt s).velY = s.velY ∧
    (groundStage env dt s).angVel = s.angVel ∧
    (groundStage env dt s).torque = s.torque ∧
    (groundStage env dt s).hasArm = s.hasArm ∧
    (groundStage env dt s).facingDir = s.facingDir ∧
    (groundStage env dt s).armAngle = s.armAngle := by
  simp only [groundStage]
  split_ifs <;> simp_all

theorem groundStage_touching_of_raw (env : WorldEnv) (dt : ℚ) (s : PlayerSimState)
    (h : env.rawGrounded = true) : (groundStage env dt s).touchingGround = true := by
  simp [groundStage, h, GROUND_GRACE_TIME_SEC]
  norm_num

theorem groundStage_airborne (env : WorldEnv) (dt : ℚ) (s : PlayerSimState)
    (h : env.rawGrounded = false) (hgrace : s.groundGraceTimer ≤ dt) :
    (groundStage env dt s).touchingGround = false := by
  have hz : max 0 (s.groundGraceTimer - dt) = 0 := by
    simp
    linarith
  simp [groundStage, h, hz]

theorem endMouseDrag_shape (s : PlayerSimState) :
    ∃ b1 b2 mt, endMouseDrag s =
      { s with isDragging := b1, hasMouseJoint := b2, mouseTarget := mt } := by
  simp only [endMouseDrag]
  split_ifs
  · exact ⟨false, false, none, rfl⟩
  · exact ⟨s.isDragging, s.hasMouseJoint, s.mouseTarget, rfl⟩

theorem startMouseDrag_shape (tx ty : ℚ) (s : PlayerSimState) :
    ∃ b1 b2 mt, startMouseDrag tx ty s =
      { s with isDragging := b1, hasMouseJoint := b2, mouseTarget := mt } := by
  simp only [startMouseDrag]
  split_ifs
  · exact ⟨s.isDragging, s.hasMouseJoint, s.mouseTarget, rfl⟩
  · exact ⟨s.isDragging, s.hasMouseJoint, s.mouseTarget, rfl⟩
  · exact ⟨true, true, some (pxToM tx, pxToM ty), rfl⟩

theorem updateMouseDrag_shape (i? : Option InputMsg) (s : PlayerSimState) :
    ∃ b1 b2 mt, updateMouseDrag i? s =
      { s with isDragging := b1, hasMouseJoint := b2, mouseTarget := mt } := by
  have hend := endMouseDrag_shape s
  cases i? with
  | none => simpa [updateMouseDrag] using hend
  | some i =>
      by_cases hda : i.dragActive = true
      · cases hdx : i.dragX with
        | none =>
            cases hdy : i.dragY <;>
              simpa [updateMouseDrag, hda, hdx] using hend
        | some tx =>
            cases hdy : i.dragY with
            | none => simpa [updateMouseDrag, hda, hdx, hdy] using hend
            | some ty =>
                simp only [updateMouseDrag, hda, hdx, hdy, Option.some_bind,
                  Option.none_bind, Bool.not_true, Bool.false_eq_true, if_false]
                obtain ⟨b1, b2, mt, hstart⟩ := startMouseDrag_shape tx ty s
                by_cases hneed : (!s.isDragging || !s.hasMouseJoint) = true
                · rw [if_pos hneed, hstart]
                  split_ifs
                  · exact ⟨b1, b2, some (pxToM tx, pxToM ty), rfl⟩
                  · exact ⟨b1, b2, mt, rfl⟩
                · rw [if_neg hneed]
                  split_ifs
                  · exact ⟨s.isDragging, s.hasMouseJoint, some (pxToM tx, pxToM ty), rfl⟩
                  · exact ⟨s.isDragging, s.hasMouseJoint, s.mouseTarget, rfl⟩
      · have hda2 : i.dragActive = false := by
          revert hda; cases i.dragActive <;> simp
        simpa [updateMouseDrag, hda2] using hend

theorem updateMouseDrag_not_wanted (i : InputMsg) (s : PlayerSimState)
    (h : i.dragActive = false) : (updateMouseDrag (some i) s).isDragging = false := by
  simp only [updateMouseDrag, h]
  simp [endMouseDrag]
  split_ifs <;> simp_all

theorem updateAutoAim_shape (t : Trig) (catalog : String → Option GunDef)
    (env : WorldEnv) (dt : ℚ) (s : PlayerSimState) :
    ∃ ax ay aa avx avy aav, updateAutoAim t catalog env dt s =
      { s with armPosX := ax, armPosY := ay, armAngle := aa,
               armVelX := avx, armVelY := avy, armAngVel := aav } := by
  have hid : ∃ ax ay aa avx avy aav, s =
      ({ s with armPosX := ax, armPosY := ay, armAngle := aa,
                armVelX := avx, armVelY := avy, armAngVel := aav } : PlayerSimState) :=
    ⟨s.armPosX, s.armPosY, s.armAngle, s.armVelX, s.armVelY, s.armAngVel, rfl⟩
  by_cases hg : s.gunId = ""
  · simp only [updateAutoAim, if_pos hg]
    exact hid
  · cases harm : s.hasArm with
    | false =>
        simp only [updateAutoAim, if_neg hg, harm, Bool.not_false, if_true]
        exact ⟨s.armPosX, s.armPosY, s.armAngle, s.armVelX, s.armVelY, s.armAngVel,
          by rw [← harm]⟩
    | true =>
        cases hcat : catalog s.gunId with
        | none =>
            simp only [updateAutoAim, if_neg hg, harm, Bool.not_true,
              Bool.false_eq_true, if_false, hcat]
            exact ⟨s.armPosX, s.armPosY, s.armAngle, s.armVelX, s.armVelY, s.armAngVel,
              by rw [← harm]⟩
        | some d =>
            by_cases hrad : d.aimRadiusPx.getD 0 ≤ 0
            · simp only [updateAutoAim, if_neg hg, harm, Bool.not_true,
                Bool.false_eq_true, if_false, hcat, if_pos hrad]
              exact ⟨s.armPosX, s.armPosY, s.armAngle, s.armVelX, s.armVelY, s.armAngVel,
                by rw [← harm]⟩
            · cases henv : env.autoAimTarget with
              | none =>
                  simp only [updateAutoAim, getArmPivotWorldM, if_neg hg, harm,
                    Bool.not_true, Bool.false_eq_true, if_false, hcat,
                    if_neg hrad, if_true, henv]
                  exact ⟨s.armPosX, s.armPosY, s.armAngle, s.armVelX, s.armVelY, s.armAngVel,
                    by rw [← harm]⟩
              | some target =>
                  simp only [updateAutoAim, getArmPivotWorldM, if_neg hg, harm,
                    Bool.not_true, Bool.false_eq_true, if_false, hcat,
                    if_neg hrad, if_true, henv]
                  split_ifs
                  · exact ⟨s.armPosX, s.armPosY, s.armAngle, s.armVelX, s.armVelY,
                      s.armAngVel, by rw [← harm]⟩
                  · exact ⟨_, _, _, _, _, _, by rw [← harm]⟩

theorem int32_eq_self (n : ℤ) (h1 : -(2 ^ 31) ≤ n) (h2 : n < 2 ^ 31) :
    GameDev.int32 n = n := by
  unfold GameDev.int32
  rw [Int.emod_eq_of_lt (by linarith) (by norm_num; linarith)]
  ring

theorem computeGunPosePx_isSome (t : Trig) (catalog : String → Option GunDef)
    (s : PlayerSimState) (d : GunDef) (hgun : s.gunId ≠ "")
    (hcat : catalog s.gunId = some d) (harm : s.hasArm = true) :
    ∃ pose, computeGunPosePx t catalog s = some pose := by
  simp only [computeGunPosePx, getArmPosePx, if_neg hgun, hcat, harm, if_true]
  exact ⟨_, rfl⟩

theorem computeGunMuzzleWorldPx_isSome (t : Trig) (catalog : String → Option GunDef)
    (s : PlayerSimState) (d : GunDef) (hgun : s.gunId ≠ "")
    (hcat : catalog s.gunId = some d) (harm : s.hasArm = true) :
    ∃ m, computeGunMuzzleWorldPx t catalog s = some m := by
  obtain ⟨pose, hpose⟩ := computeGunPosePx_isSome t catalog s d hgun hcat harm
  simp only [computeGunMuzzleWorldPx, hpose]
  exact ⟨_, rfl⟩

theorem getGunForwardUnit_isSome (t : Trig) (catalog : String → Option GunDef)
    (s : PlayerSimState) (d : GunDef) (hgun : s.gunId ≠ "")
    (hcat : catalog s.gunId = some d) (harm : s.hasArm = true) :
    ∃ u, getGunForwardUnit t catalog s = some u := by
  obtain ⟨pose, hpose⟩ := computeGunPosePx_isSome t catalog s d hgun hcat harm
  simp only [getGunForwardUnit, hpose]
  exact ⟨_, rfl⟩

theorem tryFireOnce_shape (t : Trig) (catalog : String → Option GunDef)
    (env : WorldEnv) (def? : Option GunDef) (tbs : ℚ) (s : PlayerSimState) :
    ∃ am gd ns fh, (tryFireOnce t catalog env def? tbs s).2.1 =
      { s with ammo := am, gunId := gd, nextShotMs := ns, fireHeld := fh } := by
  have hid : ∃ am gd ns fh, s =
      ({ s with ammo := am, gunId := gd, nextShotMs := ns, fireHeld := fh } :
        PlayerSimState) :=
    ⟨s.ammo, s.gunId, s.nextShotMs, s.fireHeld, rfl⟩
  cases def? with
  | none => simpa [tryFireOnce] using hid
  | some d =>
      simp only [tryFireOnce]
      split_ifs <;> try simpa using hid
      all_goals first
        | exact ⟨0, "", s.simTimeMs, false, by simp [dropGun]⟩
        | exact ⟨_, _, _, _, rfl⟩

theorem tryFireOnce_keeps_sessionId (t : Trig) (catalog : String → Option GunDef)
    (env : WorldEnv) (def? : Option GunDef) (tbs : ℚ) (s : PlayerSimState) :
    (tryFireOnce t catalog env def? tbs s).2.1.sessionId = s.sessionId := by
  obtain ⟨am, gd, ns, fh, h⟩ := tryFireOnce_shape t catalog env def? tbs s
  rw [h]

theorem tryFireOnce_keeps_facingDir (t : Trig) (catalog : String → Option GunDef)
    (env : WorldEnv) (def? : Option GunDef) (tbs : ℚ) (s : PlayerSimState) :
    (tryFireOnce t catalog env def? tbs s).2.1.facingDir = s.facingDir := by
  obtain ⟨am, gd, ns, fh, h⟩ := tryFireOnce_shape t catalog env def? tbs s
  rw [h]

theorem tryFireOnce_keeps_prevFacingDir (t : Trig) (catalog : String → Option GunDef)
    (env : WorldEnv) (def? : Option GunDef) (tbs : ℚ) (s : PlayerSimState) :
    (tryFireOnce t catalog env def? tbs s).2.1.prevFacingDir = s.prevFacingDir := by
  obtain ⟨am, gd, ns, fh, h⟩ := tryFireOnce_shape t catalog env def? tbs s
  rw [h]

theorem tryFireOnce_keeps_lastFireSeq (t : Trig) (catalog : String → Option GunDef)
    (env : WorldEnv) (def? : Option GunDef) (tbs : ℚ) (s : PlayerSimState) :
    (tryFireOnce t catalog env def? tbs s).2.1.lastFireSeq = s.lastFireSeq := by
  obtain ⟨am, gd, ns, fh, h⟩ := tryFireOnce_shape t catalog env def? tbs s
  rw [h]

theorem tryFireOnce_keeps_simTimeMs (t : Trig) (catalog : String → Option GunDef)
    (env : WorldEnv) (def? : Option GunDef) (tbs : ℚ) (s : PlayerSimState) :
    (tryFireOnce t catalog env def? tbs s).2.1.simTimeMs = s.simTimeMs := by
  obtain ⟨am, gd, ns, fh, h⟩ := tryFireOnce_shape t catalog env def? tbs s
  rw [h]

theorem tryFireOnce_keeps_dead (t : Trig) (catalog : String → Option GunDef)
    (env : WorldEnv) (def? : Option GunDef) (tbs : ℚ) (s : PlayerSimState) :
    (tryFireOnce t catalog env def? tbs s).2.1.dead = s.dead := by
  obtain ⟨am, gd, ns, fh, h⟩ := tryFireOnce_shape t catalog env def? tbs s
  rw [h]

theorem tryFireOnce_keeps_touchingGround (t : Trig) (catalog : String → Option GunDef)
    (env : WorldEnv) (def? : Option GunDef) (tbs : ℚ) (s : PlayerSimState) :
    (tryFireOnce t catalog env def? tbs s).2.1.touchingGround = s.touchingGround := by
  obtain ⟨am, gd, ns, fh, h⟩ := tryFireOnce_shape t catalog env def? tbs s
  rw [h]

theorem tryFireOnce_keeps_groundGraceTimer (t : Trig) (catalog : String → Option GunDef)
    (env : WorldEnv) (def? : Option GunDef) (tbs : ℚ) (s : PlayerSimState) :
    (tryFireOnce t catalog env def? tbs s).2.1.groundGraceTimer = s.groundGraceTimer := by
  obtain ⟨am, gd, ns, fh, h⟩ := tryFireOnce_shape t catalog env def? tbs s
  rw [h]

theorem tryFireOnce_keeps_prevTiltDir (t : Trig) (catalog : String → Option GunDef)
    (env : WorldEnv) (def? : Option GunDef) (tbs : ℚ) (s : PlayerSimState) :
    (tryFireOnce t catalog env def? tbs s).2.1.prevTiltDir = s.prevTiltDir := by
  obtain ⟨am, gd, ns, fh, h⟩ := tryFireOnce_shape t catalog env def? tbs s
  rw [h]

theorem tryFireOnce_keeps_activePivotSide (t : Trig) (catalog : String → Option GunDef)
    (env : WorldEnv) (def? : Option GunDef) (tbs : ℚ) (s : PlayerSimState) :
    (tryFireOnce t catalog env def? tbs s).2.1.activePivotSide = s.activePivotSide := by
  obtain ⟨am, gd, ns, fh, h⟩ := tryFireOnce_shape t catalog env def? tbs s
  rw [h]

theorem tryFireOnce_keeps_holdPastMaxActive (t : Trig) (catalog : String → Option GunDef)
    (env : WorldEnv) (def? : Option GunDef) (tbs : ℚ) (s : PlayerSimState) :
    (tryFireOnce t catalog env def? tbs s).2.1.holdPastMaxActive = s.holdPastMaxActive := by
  obtain ⟨am, gd, ns, fh, h⟩ := tryFireOnce_shape t catalog env def? tbs s
  rw [h]

theorem tryFireOnce_keeps_holdPastMaxAngleRad (t : Trig) (catalog : String → Option GunDef)
    (env : WorldEnv) (def? : Option GunDef) (tbs : ℚ) (s : PlayerSimState) :
    (tryFireOnce t catalog env def? tbs s).2.1.holdPastMaxAngleRad = s.holdPastMaxAngleRad := by
  obtain ⟨am, gd, ns, fh, h⟩ := tryFireOnce_shape t catalog env def? tbs s
  rw [h]

theorem tryFireOnce_keeps_leftCornerGrace (t : Trig) (catalog : String → Option GunDef)
    (env : WorldEnv) (def? : Option GunDef) (tbs : ℚ) (s : PlayerSimState) :
    (tryFireOnce t catalog env def? tbs s).2.1.leftCornerGrace = s.leftCornerGrace := by
  obtain ⟨am, gd, ns, fh, h⟩ := tryFireOnce_shape t catalog env def? tbs s
  rw [h]

theorem tryFireOnce_keeps_rightCornerGrace (t : Trig) (catalog : String → Option GunDef)
    (env : WorldEnv) (def? : Option GunDef) (tbs : ℚ) (s : PlayerSimState) :
    (tryFireOnce t catalog env def? tbs s).2.1.rightCornerGrace = s.rightCornerGrace := by
  obtain ⟨am, gd, ns, fh, h⟩ := tryFireOnce_shape t catalog env def? tbs s
  rw [h]

theorem tryFireOnce_keeps_justJumpedTimer (t : Trig) (catalog : String → Option GunDef)
    (env : WorldEnv) (def? : Option GunDef) (tbs : ℚ) (s : PlayerSimState) :
    (tryFireOnce t catalog env def? tbs s).2.1.justJumpedTimer = s.justJumpedTimer := by
  obtain ⟨am, gd, ns, fh, h⟩ := tryFireOnce_shape t catalog env def? tbs s
  rw [h]

theorem tryFireOnce_keeps_isDragging (t : Trig) (catalog : String → Option GunDef)
    (env : WorldEnv) (def? : Option GunDef) (tbs : ℚ) (s : PlayerSimState) :
    (tryFireOnce t catalog env def? tbs s).2.1.isDragging = s.isDragging := by
  obtain ⟨am, gd, ns, fh, h⟩ := tryFireOnce_shape t catalog env def? tbs s
  rw [h]

theorem tryFireOnce_keeps_hasMouseJoint (t : Trig) (catalog : String → Option GunDef)
    (env : WorldEnv) (def? : Option GunDef) (tbs : ℚ) (s : PlayerSimState) :
    (tryFireOnce t catalog env def? tbs s).2.1.hasMouseJoint = s.hasMouseJoint := by
  obtain ⟨am, gd, ns, fh, h⟩ := tryFireOnce_shape t catalog env def? tbs s
  rw [h]

theorem tryFireOnce_keeps_mouseTarget (t : Trig) (catalog : String → Option GunDef)
    (env : WorldEnv) (def? : Option GunDef) (tbs : ℚ) (s : PlayerSimState) :
    (tryFireOnce t catalog env def? tbs s).2.1.mouseTarget = s.mouseTarget := by
  obtain ⟨am, gd, ns, fh, h⟩ := tryFireOnce_shape t catalog env def? tbs s
  rw [h]

theorem tryFireOnce_keeps_posX (t : Trig) (catalog : String → Option GunDef)
    (env : WorldEnv) (def? : Option GunDef) (tbs : ℚ) (s : PlayerSimState) :
    (tryFireOnce t catalog env def? tbs s).2.1.posX = s.posX := by
  obtain ⟨am, gd, ns, fh, h⟩ := tryFireOnce_shape t catalog env def? tbs s
  rw [h]

theorem tryFireOnce_keeps_posY (t : Trig) (catalog : String → Option GunDef)
    (env : WorldEnv) (def? : Option GunDef) (tbs : ℚ) (s : PlayerSimState) :
    (tryFireOnce t catalog env def? tbs s).2.1.posY = s.posY := by
  obtain ⟨am, gd, ns, fh, h⟩ := tryFireOnce_shape t catalog env def? tbs s
  rw [h]

theorem tryFireOnce_keeps_angle (t : Trig) (catalog : String → Option GunDef)
    (env : WorldEnv) (def? : Option GunDef) (tbs : ℚ) (s : PlayerSimState) :
    (tryFireOnce t catalog env def? tbs s).2.1.angle = s.angle := by
  obtain ⟨am, gd, ns, fh, h⟩ := tryFireOnce_shape t catalog env def? tbs s
  rw [h]

theorem tryFireOnce_keeps_velX (t : Trig) (catalog : String → Option GunDef)
    (env : WorldEnv) (def? : Option GunDef) (tbs : ℚ) (s : PlayerSimState) :
    (tryFireOnce t catalog env def? tbs s).2.1.velX = s.velX := by
  obtain ⟨am, gd, ns, fh, h⟩ := tryFireOnce_shape t catalog env def? tbs s
  rw [h]

theorem tryFireOnce_keeps_velY (t : Trig) (catalog : String → Option GunDef)
    (env : WorldEnv) (def? : Option GunDef) (tbs : ℚ) (s : PlayerSimState) :
    (tryFireOnce t catalog env def? tbs s).2.1.velY = s.velY := by
  obtain ⟨am, gd, ns, fh, h⟩ := tryFireOnce_shape t catalog env def? tbs s
  rw [h]

theorem tryFireOnce_keeps_angVel (t : Trig) (catalog : String → Option GunDef)
    (env : WorldEnv) (def? : Option GunDef) (tbs : ℚ) (s : PlayerSimState) :
    (tryFireOnce t catalog env def? tbs s).2.1.angVel = s.angVel := by
  obtain ⟨am, gd, ns, fh, h⟩ := tryFireOnce_shape t catalog env def? tbs s
  rw [h]

theorem tryFireOnce_keeps_torque (t : Trig) (catalog : String → Option GunDef)
    (env : WorldEnv) (def? : Option GunDef) (tbs : ℚ) (s : PlayerSimState) :
    (tryFireOnce t catalog env def? tbs s).2.1.torque = s.torque := by
  obtain ⟨am, gd, ns, fh, h⟩ := tryFireOnce_shape t catalog env def? tbs s
  rw [h]

theorem tryFireOnce_keeps_hasArm (t : Trig) (catalog : String → Option GunDef)
    (env : WorldEnv) (def? : Option GunDef) (tbs : ℚ) (s : PlayerSimState) :
    (tryFireOnce t catalog env def? tbs s).2.1.hasArm = s.hasArm := by
  obtain ⟨am, gd, ns, fh, h⟩ := tryFireOnce_shape t catalog env def? tbs s
  rw [h]

theorem tryFireOnce_keeps_armPosX (t : Trig) (catalog : String → Option GunDef)
    (env : WorldEnv) (def? : Option GunDef) (tbs : ℚ) (s : PlayerSimState) :
    (tryFireOnce t catalog env def? tbs s).2.1.armPosX = s.armPosX := by
  obtain ⟨am, gd, ns, fh, h⟩ := tryFireOnce_shape t catalog env def? tbs s
  rw [h]

theorem tryFireOnce_keeps_armPosY (t : Trig) (catalog : String → Option GunDef)
    (env : WorldEnv) (def? : Option GunDef) (tbs : ℚ) (s : PlayerSimState) :
    (tryFireOnce t catalog env def? tbs s).2.1.armPosY = s.armPosY := by
  obtain ⟨am, gd, ns, fh, h⟩ := tryFireOnce_shape t catalog env def? tbs s
  rw [h]

theorem tryFireOnce_keeps_armAngle (t : Trig) (catalog : String → Option GunDef)
    (env : WorldEnv) (def? : Option GunDef) (tbs : ℚ) (s : PlayerSimState) :
    (tryFireOnce t catalog env def? tbs s).2.1.armAngle = s.armAngle := by
  obtain ⟨am, gd, ns, fh, h⟩ := tryFireOnce_shape t catalog env def? tbs s
  rw [h]

theorem tryFireOnce_keeps_armVelX (t : Trig) (catalog : String → Option GunDef)
    (env : WorldEnv) (def? : Option GunDef) (tbs : ℚ) (s : PlayerSimState) :
    (tryFireOnce t catalog env def? tbs s).2.1.armVelX = s.armVelX := by
  obtain ⟨am, gd, ns, fh, h⟩ := tryFireOnce_shape t catalog env def? tbs s
  rw [h]

theorem tryFireOnce_keeps_armVelY (t : Trig) (catalog : String → Option GunDef)
    (env : WorldEnv) (def? : Option GunDef) (tbs : ℚ) (s : PlayerSimState) :
    (tryFireOnce t catalog env def? tbs s).2.1.armVelY = s.armVelY := by
  obtain ⟨am, gd, ns, fh, h⟩ := tryFireOnce_shape t catalog env def? tbs s
  rw [h]

theorem tryFireOnce_keeps_armAngVel (t : Trig) (catalog : String → Option GunDef)
    (env : WorldEnv) (def? : Option GunDef) (tbs : ℚ) (s : PlayerSimState) :
    (tryFireOnce t catalog env def? tbs s).2.1.armAngVel = s.armAngVel := by
  obtain ⟨am, gd, ns, fh, h⟩ := tryFireOnce_shape t catalog env def? tbs s
  rw [h]

theorem tryFireOnce_fail_none (t : Trig) (catalog : String → Option GunDef)
    (env : WorldEnv) (tbs : ℚ) (s : PlayerSimState) :
    tryFireOnce t catalog env none tbs s = (false, s, []) := rfl

theorem tryFireOnce_fail (t : Trig) (catalog : String → Option GunDef)
    (env : WorldEnv) (d : GunDef) (tbs : ℚ) (s : PlayerSimState)
    (h : s.ammo ≤ 0 ∨ d.bulletEnabled.getD false = false ∨ s.simTimeMs < s.nextShotMs) :
    tryFireOnce t catalog env (some d) tbs s = (false, s, []) := by
  simp only [tryFireOnce]
  rcases h with h | h | h
  · rw [if_pos h]
  · split_ifs with h1 h2 <;> try rfl
    all_goals exact absurd (by simp [h]) h2
  · split_ifs <;> rfl

theorem tryFireOnce_success (t : Trig) (catalog : String → Option GunDef)
    (env : WorldEnv) (d : GunDef) (tbs : ℚ) (s : PlayerSimState)
    (hammo : 0 < s.ammo) (h127 : s.ammo ≤ 127)
    (hen : d.bulletEnabled.getD false = true)
    (hrate : s.nextShotMs ≤ s.simTimeMs)
    (hgun : s.gunId ≠ "") (hcat : catalog s.gunId = some d)
    (harm : s.hasArm = true) :
    (tryFireOnce t catalog env (some d) tbs s).1 = true ∧
    countShots (tryFireOnce t catalog env (some d) tbs s).2.2 = 1 ∧
    (tryFireOnce t catalog env (some d) tbs s).2.1.ammo = s.ammo - 1 ∧
    (s.ammo = 1 → (tryFireOnce t catalog env (some d) tbs s).2.1.gunId = "") ∧
    (1 < s.ammo → (tryFireOnce t catalog env (some d) tbs s).2.1.gunId = s.gunId ∧
      (tryFireOnce t catalog env (some d) tbs s).2.1.nextShotMs = s.simTimeMs + tbs) := by
  have hdec : GameDev.int32 (s.ammo - 1) = s.ammo - 1 :=
    int32_eq_self (s.ammo - 1) (by norm_num; linarith) (by norm_num; linarith)
  have hmax : max 0 (GameDev.int32 (s.ammo - 1)) = s.ammo - 1 := by
    rw [hdec]
    exact max_eq_right (by linarith)
  obtain ⟨m, hm⟩ := computeGunMuzzleWorldPx_isSome t catalog
    { s with ammo := max 0 (GameDev.int32 (s.ammo - 1)) } d hgun hcat harm
  obtain ⟨u, hu⟩ := getGunForwardUnit_isSome t catalog
    { s with ammo := max 0 (GameDev.int32 (s.ammo - 1)) } d hgun hcat harm
  simp only [tryFireOnce]
  rw [if_neg (by linarith), if_neg (by rw [hen]; simp), if_neg (by linarith)]
  simp only [hmax] at hm hu ⊢
  simp only [hm, hu]
  refine ⟨by trivial, ?_, ?_, ?_, ?_⟩
  · split
    · split_ifs <;> simp [countShots, isShot]
    · simp [countShots, isShot]
  · by_cases hzero : s.ammo ≤ 1
    · have h1 : s.ammo = 1 := le_antisymm hzero (by linarith)
      simp [hzero, dropGun, h1]
    · simp [hzero]
  · intro h1
    have hzero : s.ammo ≤ 1 := by omega
    simp [hzero, dropGun]
  · intro h1
    have hzero : ¬ s.ammo ≤ 1 := by omega
    simp [hzero]

theorem resetTiltState_keeps_gunId (s : PlayerSimState) :
    (resetTiltState s).gunId = s.gunId := rfl

theorem applyTiltPinned_keeps_gunId (t : Trig) (a b : ℚ) (l r : Bool)
    (s : PlayerSimState) : (applyTiltPinnedToFootContact t a b l r s).gunId = s.gunId := rfl

theorem doTiltReleaseJump_keeps_gunId (t : Trig) (s : PlayerSimState) :
    (doTiltReleaseJump t s).2.gunId = s.gunId := by
  simp only [doTiltReleaseJump]
  split_ifs <;> rfl

theorem tiltHold_keeps_gunId (t : Trig) (env : WorldEnv) (dt : ℚ) (td : ℤ)
    (s : PlayerSimState) : (tiltHold t env dt td s).gunId = s.gunId := by
  simp only [tiltHold, applyTiltPinnedToFootContact]
  split_ifs <;> try rfl
  all_goals simp [apply_ite (fun st : PlayerSimState => st.gunId)]

theorem balanceTail_keeps_gunId (t : Trig) (td : ℤ) (s : PlayerSimState) :
    (balanceTail t td s).gunId = s.gunId := by
  simp only [balanceTail, computePDTorqueWrapped]
  split_ifs <;> rfl

theorem movementStage_keeps_gunId (t : Trig) (env : WorldEnv)
    (i? : Option InputMsg) (dt : ℚ) (s : PlayerSimState) :
    (movementStage t env i? dt s).gunId = s.gunId := by
  cases i? with
  | none =>
      simp only [movementStage]
      split_ifs <;> rfl
  | some i =>
      simp only [movementStage]
      split_ifs <;>
        simp [resetTiltState_keeps_gunId, doTiltReleaseJump_keeps_gunId,
          tiltHold_keeps_gunId, balanceTail_keeps_gunId, resetTiltState]

theorem resetTiltState_keeps_ammo (s : PlayerSimState) :
    (resetTiltState s).ammo = s.ammo := rfl

theorem applyTiltPinned_keeps_ammo (t : Trig) (a b : ℚ) (l r : Bool)
    (s : PlayerSimState) : (applyTiltPinnedToFootContact t a b l r s).ammo = s.ammo := rfl

theorem doTiltReleaseJump_keeps_ammo (t : Trig) (s : PlayerSimState) :
    (doTiltReleaseJump t s).2.ammo = s.ammo := by
  simp only [doTiltReleaseJump]
  split_ifs <;> rfl

theorem tiltHold_keeps_ammo (t : Trig) (env : WorldEnv) (dt : ℚ) (td : ℤ)
    (s : PlayerSimState) : (tiltHold t env dt td s).ammo = s.ammo := by
  simp only [tiltHold, applyTiltPinnedToFootContact]
  split_ifs <;> try rfl
  all_goals simp [apply_ite (fun st : PlayerSimState => st.ammo)]

theorem balanceTail_keeps_ammo (t : Trig) (td : ℤ) (s : PlayerSimState) :
    (balanceTail t td s).ammo = s.ammo := by
  simp only [balanceTail, computePDTorqueWrapped]
  split_ifs <;> rfl

theorem movementStage_keeps_ammo (t : Trig) (env : WorldEnv)
    (i? : Option InputMsg) (dt : ℚ) (s : PlayerSimState) :
    (movementStage t env i? dt s).ammo = s.ammo := by
  cases i? with
  | none =>
      simp only [movementStage]
      split_ifs <;> rfl
  | some i =>
      simp only [movementStage]
      split_ifs <;>
        simp [resetTiltState_keeps_ammo, doTiltReleaseJump_keeps_ammo,
          tiltHold_keeps_ammo, balanceTail_keeps_ammo, resetTiltState]

theorem resetTiltState_keeps_lastFireSeq (s : PlayerSimState) :
    (resetTiltState s).lastFireSeq = s.lastFireSeq := rfl

theorem applyTiltPinned_keeps_lastFireSeq (t : Trig) (a b : ℚ) (l r : Bool)
    (s : PlayerSimState) : (applyTiltPinnedToFootContact t a b l r s).lastFireSeq = s.lastFireSeq := rfl

theorem doTiltReleaseJump_keeps_lastFireSeq (t : Trig) (s : PlayerSimState) :
    (doTiltReleaseJump t s).2.lastFireSeq = s.lastFireSeq := by
  simp only [doTiltReleaseJump]
  split_ifs <;> rfl

theorem tiltHold_keeps_lastFireSeq (t : Trig) (env : WorldEnv) (dt : ℚ) (td : ℤ)
    (s : PlayerSimState) : (tiltHold t env dt td s).lastFireSeq = s.lastFireSeq := by
  simp only [tiltHold, applyTiltPinnedToFootContact]
  split_ifs <;> try rfl
  all_goals simp [apply_ite (fun st : PlayerSimState => st.lastFireSeq)]

theorem balanceTail_keeps_lastFireSeq (t : Trig) (td : ℤ) (s : PlayerSimState) :
    (balanceTail t td s).lastFireSeq = s.lastFireSeq := by
  simp only [balanceTail, computePDTorqueWrapped]
  split_ifs <;> rfl

theorem movementStage_keeps_lastFireSeq (t : Trig) (env : WorldEnv)
    (i? : Option InputMsg) (dt : ℚ) (s : PlayerSimState) :
    (movementStage t env i? dt s).lastFireSeq = s.lastFireSeq := by
  cases i? with
  | none =>
      simp only [movementStage]
      split_ifs <;> rfl
  | some i =>
      simp only [movementStage]
      split_ifs <;>
        simp [resetTiltState_keeps_lastFireSeq, doTiltReleaseJump_keeps_lastFireSeq,
          tiltHold_keeps_lastFireSeq, balanceTail_keeps_lastFireSeq, resetTiltState]

theorem resetTiltState_keeps_fireHeld (s : PlayerSimState) :
    (resetTiltState s).fireHeld = s.fireHeld := rfl

theorem applyTiltPinned_keeps_fireHeld (t : Trig) (a b : ℚ) (l r : Bool)
    (s : PlayerSimState) : (applyTiltPinnedToFootContact t a b l r s).fireHeld = s.fireHeld := rfl

theorem doTiltReleaseJump_keeps_fireHeld (t : Trig) (s : PlayerSimState) :
    (doTiltReleaseJump t s).2.fireHeld = s.fireHeld := by
  simp only [doTiltReleaseJump]
  split_ifs <;> rfl

theorem tiltHold_keeps_fireHeld (t : Trig) (env : WorldEnv) (dt : ℚ) (td : ℤ)
    (s : PlayerSimState) : (tiltHold t env dt td s).fireHeld = s.fireHeld := by
  simp only [tiltHold, applyTiltPinnedToFootContact]
  split_ifs <;> try rfl
  all_goals simp [apply_ite (fun st : PlayerSimState => st.fireHeld)]

theorem balanceTail_keeps_fireHeld (t : Trig) (td : ℤ) (s : PlayerSimState) :
    (balanceTail t td s).fireHeld = s.fireHeld := by
  simp only [balanceTail, computePDTorqueWrapped]
  split_ifs <;> rfl

theorem movementStage_keeps_fireHeld (t : Trig) (env : WorldEnv)
    (i? : Option InputMsg) (dt : ℚ) (s : PlayerSimState) :
    (movementStage t env i? dt s).fireHeld = s.fireHeld := by
  cases i? with
  | none =>
      simp only [movementStage]
      split_ifs <;> rfl
  | some i =>
      simp only [movementStage]
      split_ifs <;>
        simp [resetTiltState_keeps_fireHeld, doTiltReleaseJump_keeps_fireHeld,
          tiltHold_keeps_fireHeld, balanceTail_keeps_fireHeld, resetTiltState]

theorem resetTiltState_keeps_simTimeMs (s : PlayerSimState) :
    (resetTiltState s).simTimeMs = s.simTimeMs := rfl

theorem applyTiltPinned_keeps_simTimeMs (t : Trig) (a b : ℚ) (l r : Bool)
    (s : PlayerSimState) : (applyTiltPinnedToFootContact t a b l r s).simTimeMs = s.simTimeMs := rfl

theorem doTiltReleaseJump_keeps_simTimeMs (t : Trig) (s : PlayerSimState) :
    (doTiltReleaseJump t s).2.simTimeMs = s.simTimeMs := by
  simp only [doTiltReleaseJump]
  split_ifs <;> rfl

theorem tiltHold_keeps_simTimeMs (t : Trig) (env : WorldEnv) (dt : ℚ) (td : ℤ)
    (s : PlayerSimState) : (tiltHold t env dt td s).simTimeMs = s.simTimeMs := by
  simp only [tiltHold, applyTiltPinnedToFootContact]
  split_ifs <;> try rfl
  all_goals simp [apply_ite (fun st : PlayerSimState => st.simTimeMs)]

theorem balanceTail_keeps_simTimeMs (t : Trig) (td : ℤ) (s : PlayerSimState) :
    (balanceTail t td s).simTimeMs = s.simTimeMs := by
  simp only [balanceTail, computePDTorqueWrapped]
  split_ifs <;> rfl

theorem movementStage_keeps_simTimeMs (t : Trig) (env : WorldEnv)
    (i? : Option InputMsg) (dt : ℚ) (s : PlayerSimState) :
    (movementStage t env i? dt s).simTimeMs = s.simTimeMs := by
  cases i? with
  | none =>
      simp only [movementStage]
      split_ifs <;> rfl
  | some i =>
      simp only [movementStage]
      split_ifs <;>
        simp [resetTiltState_keeps_simTimeMs, doTiltReleaseJump_keeps_simTimeMs,
          tiltHold_keeps_simTimeMs, balanceTail_keeps_simTimeMs, resetTiltState]

theorem resetTiltState_keeps_nextShotMs (s : PlayerSimState) :
    (resetTiltState s).nextShotMs = s.nextShotMs := rfl

theorem applyTiltPinned_keeps_nextShotMs (t : Trig) (a b : ℚ) (l r : Bool)
    (s : PlayerSimState) : (applyTiltPinnedToFootContact t a b l r s).nextShotMs = s.nextShotMs := rfl

theorem doTiltReleaseJump_keeps_nextShotMs (t : Trig) (s : PlayerSimState) :
    (doTiltReleaseJump t s).2.nextShotMs = s.nextShotMs := by
  simp only [doTiltReleaseJump]
  split_ifs <;> rfl

theorem tiltHold_keeps_nextShotMs (t : Trig) (env : WorldEnv) (dt : ℚ) (td : ℤ)
    (s : PlayerSimState) : (tiltHold t env dt td s).nextShotMs = s.nextShotMs := by
  simp only [tiltHold, applyTiltPinnedToFootContact]
  split_ifs <;> try rfl
  all_goals simp [apply_ite (fun st : PlayerSimState => st.nextShotMs)]

theorem balanceTail_keeps_nextShotMs (t : Trig) (td : ℤ) (s : PlayerSimState) :
    (balanceTail t td s).nextShotMs = s.nextShotMs := by
  simp only [balanceTail, computePDTorqueWrapped]
  split_ifs <;> rfl

theorem movementStage_keeps_nextShotMs (t : Trig) (env : WorldEnv)
    (i? : Option InputMsg) (dt : ℚ) (s : PlayerSimState) :
    (movementStage t env i? dt s).nextShotMs = s.nextShotMs := by
  cases i? with
  | none =>
      simp only [movementStage]
      split_ifs <;> rfl
  | some i =>
      simp only [movementStage]
      split_ifs <;>
        simp [resetTiltState_keeps_nextShotMs, doTiltReleaseJump_keeps_nextShotMs,
          tiltHold_keeps_nextShotMs, balanceTail_keeps_nextShotMs, resetTiltState]

theorem resetTiltState_keeps_dead (s : PlayerSimState) :
    (resetTiltState s).dead = s.dead := rfl

theorem applyTiltPinned_keeps_dead (t : Trig) (a b : ℚ) (l r : Bool)
    (s : PlayerSimState) : (applyTiltPinnedToFootContact t a b l r s).dead = s.dead := rfl

theorem doTiltReleaseJump_keeps_dead (t : Trig) (s : PlayerSimState) :
    (doTiltReleaseJump t s).2.dead = s.dead := by
  simp only [doTiltReleaseJump]
  split_ifs <;> rfl

theorem tiltHold_keeps_dead (t : Trig) (env : WorldEnv) (dt : ℚ) (td : ℤ)
    (s : PlayerSimState) : (tiltHold t env dt td s).dead = s.dead := by
  simp only [tiltHold, applyTiltPinnedToFootContact]
  split_ifs <;> try rfl
  all_goals simp [apply_ite (fun st : PlayerSimState => st.dead)]

theorem balanceTail_keeps_dead (t : Trig) (td : ℤ) (s : PlayerSimState) :
    (balanceTail t td s).dead = s.dead := by
  simp only [balanceTail, computePDTorqueWrapped]
  split_ifs <;> rfl

theorem movementStage_keeps_dead (t : Trig) (env : WorldEnv)
    (i? : Option InputMsg) (dt : ℚ) (s : PlayerSimState) :
    (movementStage t env i? dt s).dead = s.dead := by
  cases i? with
  | none =>
      simp only [movementStage]
      split_ifs <;> rfl
  | some i =>
      simp only [movementStage]
      split_ifs <;>
        simp [resetTiltState_keeps_dead, doTiltReleaseJump_keeps_dead,
          tiltHold_keeps_dead, balanceTail_keeps_dead, resetTiltState]

theorem resetTiltState_keeps_sessionId (s : PlayerSimState) :
    (resetTiltState s).sessionId = s.sessionId := rfl

theorem applyTiltPinned_keeps_sessionId (t : Trig) (a b : ℚ) (l r : Bool)
    (s : PlayerSimState) : (applyTiltPinnedToFootContact t a b l r s).sessionId = s.sessionId := rfl

theorem doTiltReleaseJump_keeps_sessionId (t : Trig) (s : PlayerSimState) :
    (doTiltReleaseJump t s).2.sessionId = s.sessionId := by
  simp only [doTiltReleaseJump]
  split_ifs <;> rfl

theorem tiltHold_keeps_sessionId (t : Trig) (env : WorldEnv) (dt : ℚ) (td : ℤ)
    (s : PlayerSimState) : (tiltHold t env dt td s).sessionId = s.sessionId := by
  simp only [tiltHold, applyTiltPinnedToFootContact]
  split_ifs <;> try rfl
  all_goals simp [apply_ite (fun st : PlayerSimState => st.sessionId)]

theorem balanceTail_keeps_sessionId (t : Trig) (td : ℤ) (s : PlayerSimState) :
    (balanceTail t td s).sessionId = s.sessionId := by
  simp only [balanceTail, computePDTorqueWrapped]
  split_ifs <;> rfl

theorem movementStage_keeps_sessionId (t : Trig) (env : WorldEnv)
    (i? : Option InputMsg) (dt : ℚ) (s : PlayerSimState) :
    (movementStage t env i? dt s).sessionId = s.sessionId := by
  cases i? with
  | none =>
      simp only [movementStage]
      split_ifs <;> rfl
  | some i =>
      simp only [movementStage]
      split_ifs <;>
        simp [resetTiltState_keeps_sessionId, doTiltReleaseJump_keeps_sessionId,
          tiltHold_keeps_sessionId, balanceTail_keeps_sessionId, resetTiltState]

theorem resetTiltState_keeps_hasArm (s : PlayerSimState) :
    (resetTiltState s).hasArm = s.hasArm := rfl

theorem applyTiltPinned_keeps_hasArm (t : Trig) (a b : ℚ) (l r : Bool)
    (s : PlayerSimState) : (applyTiltPinnedToFootContact t a b l r s).hasArm = s.hasArm := rfl

theorem doTiltReleaseJump_keeps_hasArm (t : Trig) (s : PlayerSimState) :
    (doTiltReleaseJump t s).2.hasArm = s.hasArm := by
  simp only [doTiltReleaseJump]
  split_ifs <;> rfl

theorem tiltHold_keeps_hasArm (t : Trig) (env : WorldEnv) (dt : ℚ) (td : ℤ)
    (s : PlayerSimState) : (tiltHold t env dt td s).hasArm = s.hasArm := by
  simp only [tiltHold, applyTiltPinnedToFootContact]
  split_ifs <;> try rfl
  all_goals simp [apply_ite (fun st : PlayerSimState => st.hasArm)]

theorem balanceTail_keeps_hasArm (t : Trig) (td : ℤ) (s : PlayerSimState) :
    (balanceTail t td s).hasArm = s.hasArm := by
  simp only [balanceTail, computePDTorqueWrapped]
  split_ifs <;> rfl

theorem movementStage_keeps_hasArm (t : Trig) (env : WorldEnv)
    (i? : Option InputMsg) (dt : ℚ) (s : PlayerSimState) :
    (movementStage t env i? dt s).hasArm = s.hasArm := by
  cases i? with
  | none =>
      simp only [movementStage]
      split_ifs <;> rfl
  | some i =>
      simp only [movementStage]
      split_ifs <;>
        simp [resetTiltState_keeps_hasArm, doTiltReleaseJump_keeps_hasArm,
          tiltHold_keeps_hasArm, balanceTail_keeps_hasArm, resetTiltState]

theorem resetTiltState_keeps_isDragging (s : PlayerSimState) :
    (resetTiltState s).isDragging = s.isDragging := rfl

theorem applyTiltPinned_keeps_isDragging (t : Trig) (a b : ℚ) (l r : Bool)
    (s : PlayerSimState) : (applyTiltPinnedToFootContact t a b l r s).isDragging = s.isDragging := rfl

theorem doTiltReleaseJump_keeps_isDragging (t : Trig) (s : PlayerSimState) :
    (doTiltReleaseJump t s).2.isDragging = s.isDragging := by
  simp only [doTiltReleaseJump]
  split_ifs <;> rfl

theorem tiltHold_keeps_isDragging (t : Trig) (env : WorldEnv) (dt : ℚ) (td : ℤ)
    (s : PlayerSimState) : (tiltHold t env dt td s).isDragging = s.isDragging := by
  simp only [tiltHold, applyTiltPinnedToFootContact]
  split_ifs <;> try rfl
  all_goals simp [apply_ite (fun st : PlayerSimState => st.isDragging)]

theorem balanceTail_keeps_isDragging (t : Trig) (td : ℤ) (s : PlayerSimState) :
    (balanceTail t td s).isDragging = s.isDragging := by
  simp only [balanceTail, computePDTorqueWrapped]
  split_ifs <;> rfl

theorem movementStage_keeps_isDragging (t : Trig) (env : WorldEnv)
    (i? : Option InputMsg) (dt : ℚ) (s : PlayerSimState) :
    (movementStage t env i? dt s).isDragging = s.isDragging := by
  cases i? with
  | none =>
      simp only [movementStage]
      split_ifs <;> rfl
  | some i =>
      simp only [movementStage]
      split_ifs <;>
        simp [resetTiltState_keeps_isDragging, doTiltReleaseJump_keeps_isDragging,
          tiltHold_keeps_isDragging, balanceTail_keeps_isDragging, resetTiltState]

theorem updateMouseDrag_keeps_ammo (i? : Option InputMsg) (s : PlayerSimState) :
    (updateMouseDrag i? s).ammo = s.ammo := by
  obtain ⟨b1, b2, mt, h⟩ := updateMouseDrag_shape i? s
  rw [h]

theorem updateAutoAim_keeps_ammo (t : Trig) (catalog : String → Option GunDef)
    (env : WorldEnv) (dt : ℚ) (s : PlayerSimState) :
    (updateAutoAim t catalog env dt s).ammo = s.ammo := by
  obtain ⟨ax, ay, aa, avx, avy, aav, h⟩ := updateAutoAim_shape t catalog env dt s
  rw [h]

theorem tryFireOnce_ammo_bound (t : Trig) (catalog : String → Option GunDef)
    (env : WorldEnv) (def? : Option GunDef) (tbs : ℚ) (s : PlayerSimState)
    (h0 : 0 ≤ s.ammo) (h1 : s.ammo ≤ 127) :
    0 ≤ (tryFireOnce t catalog env def? tbs s).2.1.ammo ∧
    (tryFireOnce t catalog env def? tbs s).2.1.ammo ≤ 127 := by
  have hdec : GameDev.int32 (s.ammo - 1) = s.ammo - 1 :=
    int32_eq_self (s.ammo - 1) (by norm_num; linarith) (by norm_num; linarith)
  cases def? with
  | none => exact ⟨h0, h1⟩
  | some d =>
      simp only [tryFireOnce]
      split_ifs <;> try exact ⟨h0, h1⟩
      · simp [dropGun]
      · simp only [hdec]
        constructor
        · exact le_max_left _ _
        · rw [max_eq_right (by rename_i hA hB hC hD; omega)]
          omega

theorem gunStage_ammo_bound (t : Trig) (catalog : String → Option GunDef)
    (env : WorldEnv) (i? : Option InputMsg) (s : PlayerSimState)
    (h0 : 0 ≤ s.ammo) (h1 : s.ammo ≤ 127) :
    0 ≤ (gunStage t catalog env i? s).1.ammo ∧
    (gunStage t catalog env i? s).1.ammo ≤ 127 := by
  simp only [gunStage]
  generalize (match i? with | none => (0 : ℤ) | some i => i.fireSeq) = fsv
  generalize (match i? with | none => false | some i => i.fireHeld) = fhv
  split_ifs with hedge hauto
  · have hb := tryFireOnce_ammo_bound t catalog env (catalog s.gunId)
      (0 ⊔ ((catalog s.gunId).bind fun d => d.timeBetweenShots).getD 0)
      { s with lastFireSeq := GameDev.int32 fsv, fireHeld := fhv }
      h0 h1
    exact tryFireOnce_ammo_bound t catalog env _ _ _ hb.1 hb.2
  · exact tryFireOnce_ammo_bound t catalog env _ _
      { s with lastFireSeq := GameDev.int32 fsv, fireHeld := fhv } h0 h1
  · exact tryFireOnce_ammo_bound t catalog env _ _
      { s with fireHeld := fhv } h0 h1
  · exact ⟨h0, h1⟩

set_option maxHeartbeats 1000000 in
theorem gunStage_char (t : Trig) (catalog : String → Option GunDef)
    (env : WorldEnv) (i? : Option InputMsg) (s : PlayerSimState)
    (harm : s.hasArm = true) (hcat0 : catalog "" = none)
    (h0 : 0 ≤ s.ammo) (h127 : s.ammo ≤ 127) :
    countShots (gunStage t catalog env i? s).2 ≤ 1 ∧
    (countShots (gunStage t catalog env i? s).2 = 1 →
      0 < s.ammo ∧ s.gunId ≠ "" ∧
      (∃ d, catalog s.gunId = some d ∧ d.bulletEnabled.getD false = true) ∧
      s.nextShotMs ≤ s.simTimeMs ∧
      (gunStage t catalog env i? s).1.ammo = s.ammo - 1 ∧
      (s.ammo = 1 → (gunStage t catalog env i? s).1.gunId = "")) ∧
    (countShots (gunStage t catalog env i? s).2 = 0 →
      (gunStage t catalog env i? s).1.ammo = s.ammo ∧
      (gunStage t catalog env i? s).1.gunId = s.gunId) := by
  simp only [gunStage]
  generalize (match i? with | none => (0 : ℤ) | some i => i.fireSeq) = fsv
  generalize (match i? with | none => false | some i => i.fireHeld) = fhv
  cases hcat : catalog s.gunId with
  | none =>
      split_ifs with hedge hauto1 hauto2 <;>
        simp [tryFireOnce_fail_none, countShots]
  | some d =>
      by_cases hfire : 0 < s.ammo ∧ d.bulletEnabled.getD false = true ∧
          s.nextShotMs ≤ s.simTimeMs
      · obtain ⟨ha, hen, hrate⟩ := hfire
        have hgun : s.gunId ≠ "" := by
          intro he
          rw [he, hcat0] at hcat
          exact Option.noConfusion hcat
        split_ifs with hedge hauto1 hauto2
        · have hs := tryFireOnce_success t catalog env d
            (max 0 (d.timeBetweenShots.getD 0))
            { s with fireHeld := fhv, lastFireSeq := int32 fsv }
            ha h127 hen hrate hgun hcat harm
          have hauto1c : (!(tryFireOnce t catalog env (some d)
                (max 0 (d.timeBetweenShots.getD 0))
                { s with fireHeld := fhv, lastFireSeq := int32 fsv }).1 &&
              (d.automatic).getD false &&
              (tryFireOnce t catalog env (some d)
                (max 0 (d.timeBetweenShots.getD 0))
                { s with fireHeld := fhv, lastFireSeq := int32 fsv }).2.1.fireHeld) =
              true := hauto1
          rw [hs.1] at hauto1c
          simp at hauto1c
        · obtain ⟨hf1, hcount, hammo, hgd1, hgd2⟩ := tryFireOnce_success t catalog env d
            (max 0 (d.timeBetweenShots.getD 0))
            { s with fireHeld := fhv, lastFireSeq := int32 fsv }
            ha h127 hen hrate hgun hcat harm
          refine ⟨le_of_eq hcount, ?_, ?_⟩
          · intro h1
            exact ⟨ha, hgun, ⟨d, rfl, hen⟩, hrate, hammo, hgd1⟩
          · intro hzero
            have hzero2 : countShots (tryFireOnce t catalog env (some d)
                (max 0 (d.timeBetweenShots.getD 0))
                { s with fireHeld := fhv, lastFireSeq := int32 fsv }).2.2 = 0 := hzero
            rw [hcount] at hzero2
            exact absurd hzero2 one_ne_zero
        · obtain ⟨hf1, hcount, hammo, hgd1, hgd2⟩ := tryFireOnce_success t catalog env d
            (max 0 (d.timeBetweenShots.getD 0))
            { s with fireHeld := fhv }
            ha h127 hen hrate hgun hcat harm
          refine ⟨le_of_eq hcount, ?_, ?_⟩
          · intro h1
            exact ⟨ha, hgun, ⟨d, rfl, hen⟩, hrate, hammo, hgd1⟩
          · intro hzero
            have hzero2 : countShots (tryFireOnce t catalog env (some d)
                (max 0 (d.timeBetweenShots.getD 0))
                { s with fireHeld := fhv }).2.2 = 0 := hzero
            rw [hcount] at hzero2
            exact absurd hzero2 one_ne_zero
        · refine ⟨by simp [countShots], ?_, ?_⟩
          · intro h1
            exact absurd h1 (by simp [countShots])
          · intro _
            exact ⟨rfl, rfl⟩
      · have hcond : s.ammo ≤ 0 ∨ d.bulletEnabled.getD false = false ∨
            s.simTimeMs < s.nextShotMs := by
          by_contra hC
          push_neg at hC
          refine hfire ⟨hC.1, ?_, hC.2.2⟩
          cases hb : d.bulletEnabled.getD false
          · exact absurd hb hC.2.1
          · rfl
        rcases hcond with hc | hc | hc <;>
          · split_ifs with hedge hauto1 hauto2 <;>
              simp [tryFireOnce_fail, hc, countShots]

theorem applyInput_alive (t : Trig) (catalog : String → Option GunDef)
    (env : WorldEnv) (i? : Option InputMsg) (dt : ℚ) (s : PlayerSimState)
    (hdead : s.dead = false) :
    applyInput t catalog env i? dt s =
      (movementStage t env i? dt (gunStage t catalog env i?
          (preGunState t catalog env i? dt s)).1,
        (gunStage t catalog env i? (preGunState t catalog env i? dt s)).2) := by
  simp only [applyInput, preGunState]
  rw [if_neg (by simp [hdead])]

theorem preGunState_facts (t : Trig) (catalog : String → Option GunDef)
    (env : WorldEnv) (i? : Option InputMsg) (dt : ℚ) (s : PlayerSimState) :
    (preGunState t catalog env i? dt s).velX = s.velX ∧
    (preGunState t catalog env i? dt s).velY = s.velY ∧
    (preGunState t catalog env i? dt s).angVel = s.angVel ∧
    (preGunState t catalog env i? dt s).posX = s.posX ∧
    (preGunState t catalog env i? dt s).posY = s.posY ∧
    (preGunState t catalog env i? dt s).angle = s.angle ∧
    (preGunState t catalog env i? dt s).torque = s.torque ∧
    (preGunState t catalog env i? dt s).prevTiltDir = s.prevTiltDir ∧
    (preGunState t catalog env i? dt s).dead = s.dead ∧
    (preGunState t catalog env i? dt s).gunId = s.gunId ∧
    (preGunState t catalog env i? dt s).ammo = s.ammo ∧
    (preGunState t catalog env i? dt s).lastFireSeq = s.lastFireSeq ∧
    (preGunState t catalog env i? dt s).nextShotMs = s.nextShotMs ∧
    (preGunState t catalog env i? dt s).simTimeMs = s.simTimeMs + max 0 dt * 1000 ∧
    (preGunState t catalog env i? dt s).sessionId = s.sessionId ∧
    (s.hasArm = true → (preGunState t catalog env i? dt s).hasArm = true) ∧
    (env.rawGrounded = true → (preGunState t catalog env i? dt s).touchingGround = true) ∧
    (env.rawGrounded = false → s.groundGraceTimer ≤ dt →
      (preGunState t catalog env i? dt s).touchingGround = false) ∧
    (∀ i, i? = some i → i.dragActive = false →
      (preGunState t catalog env i? dt s).isDragging = false) := by
  obtain ⟨f1, f2, f3, f4, f5, f6, f7, f8, f9, f10, f11, f12, f13, f14, f15, f16,
    f17, f18, f19, f20, f21, f22, f23, f24, f25, f26, f27⟩ :=
    facingStage_preserves t i? { s with simTimeMs := s.simTimeMs + max 0 dt * 1000 }
  obtain ⟨g1, g2, g3, g4, g5, g6, g7, g8, g9, g10, g11, g12, g13, g14, g15, g16,
    g17, g18, g19, g20, g21, g22, g23, g24, g25, g26⟩ :=
    groundStage_preserves env dt
      (facingStage t i? { s with simTimeMs := s.simTimeMs + max 0 dt * 1000 })
  obtain ⟨b1, b2, mt, hdragEq⟩ :=
    updateMouseDrag_shape i? (groundStage env dt
      (facingStage t i? { s with simTimeMs := s.simTimeMs + max 0 dt * 1000 }))
  obtain ⟨ax, ay, aa, avx, avy, aav, haimEq⟩ :=
    updateAutoAim_shape t catalog env dt (updateMouseDrag i? (groundStage env dt
      (facingStage t i? { s with simTimeMs := s.simTimeMs + max 0 dt * 1000 })))
  have hpre : preGunState t catalog env i? dt s =
      { groundStage env dt (facingStage t i?
          { s with simTimeMs := s.simTimeMs + max 0 dt * 1000 }) with
        isDragging := b1
        hasMouseJoint := b2
        mouseTarget := mt
        armPosX := ax
        armPosY := ay
        armAngle := aa
        armVelX := avx
        armVelY := avy
        armAngVel := aav } := by
    simp only [preGunState]
    rw [haimEq, hdragEq]
  refine ⟨?_, ?_, ?_, ?_, ?_, ?_, ?_, ?_, ?_, ?_, ?_, ?_, ?_, ?_, ?_, ?_, ?_, ?_, ?_⟩
  · rw [hpre]; exact g20.trans f23
  · rw [hpre]; exact g21.trans f24
  · rw [hpre]; exact g22.trans f25
  · rw [hpre]; exact g17.trans f20
  · rw [hpre]; exact g18.trans f21
  · rw [hpre]; exact g19.trans f22
  · rw [hpre]; exact g23.trans f26
  · rw [hpre]; exact g11.trans f13
  · rw [hpre]; exact g8.trans f8
  · rw [hpre]; exact g1.trans f1
  · rw [hpre]; exact g2.trans f2
  · rw [hpre]; exact g3.trans f3
  · rw [hpre]; exact g6.trans f6
  · rw [hpre]; exact g5.trans f5
  · rw [hpre]; exact g7.trans f7
  · intro harm
    rw [hpre]
    exact g24.trans (f27 harm)
  · intro hraw
    rw [hpre]
    exact groundStage_touching_of_raw env dt
      (facingStage t i? { s with simTimeMs := s.simTimeMs + max 0 dt * 1000 }) hraw
  · intro hraw hgrace
    have hg : (facingStage t i?
        { s with simTimeMs := s.simTimeMs + max 0 dt * 1000 }).groundGraceTimer ≤ dt := by
      rw [f12]
      exact hgrace
    rw [hpre]
    exact groundStage_airborne env dt
      (facingStage t i? { s with simTimeMs := s.simTimeMs + max 0 dt * 1000 }) hraw hg
  · intro i hi hact
    subst hi
    have hnd := updateMouseDrag_not_wanted i (groundStage env dt
      (facingStage t (some i) { s with simTimeMs := s.simTimeMs + max 0 dt * 1000 })) hact
    rw [hdragEq] at hnd
    rw [hpre]
    exact hnd

theorem applyInput_ammo_bound (t : Trig) (catalog : String → Option GunDef)
    (env : WorldEnv) (i? : Option InputMsg) (dt : ℚ) (s : PlayerSimState)
    (h0 : 0 ≤ s.ammo) (h1 : s.ammo ≤ 127) :
    0 ≤ (applyInput t catalog env i? dt s).1.ammo ∧
    (applyInput t catalog env i? dt s).1.ammo ≤ 127 := by
  simp only [applyInput]
  split_ifs with hdead
  · obtain ⟨b1, b2, mt, hend⟩ :=
      endMouseDrag_shape { s with simTimeMs := s.simTimeMs + max 0 dt * 1000 }
    rw [hend]
    exact ⟨h0, h1⟩
  · have e1 : (facingStage t i?
        { s with simTimeMs := s.simTimeMs + max 0 dt * 1000 }).ammo = s.ammo :=
      (facingStage_preserves t i? _).2.1
    have e2 : (groundStage env dt (facingStage t i?
        { s with simTimeMs := s.simTimeMs + max 0 dt * 1000 })).ammo = s.ammo := by
      rw [(groundStage_preserves env dt _).2.1, e1]
    have e3 : (updateMouseDrag i? (groundStage env dt (facingStage t i?
        { s with simTimeMs := s.simTimeMs + max 0 dt * 1000 }))).ammo = s.ammo := by
      rw [updateMouseDrag_keeps_ammo, e2]
    have e4 : (updateAutoAim t catalog env dt (updateMouseDrag i?
        (groundStage env dt (facingStage t i?
          { s with simTimeMs := s.simTimeMs + max 0 dt * 1000 })))).ammo = s.ammo := by
      rw [updateAutoAim_keeps_ammo, e3]
    rw [movementStage_keeps_ammo]
    exact gunStage_ammo_bound t catalog env i? _ (by rw [e4]; exact h0)
      (by rw [e4]; exact h1)

set_option maxHeartbeats 1000000 in
theorem gunStage_preserves (t : Trig) (catalog : String → Option GunDef)
    (env : WorldEnv) (i? : Option InputMsg) (s : PlayerSimState) :
    (gunStage t catalog env i? s).1.sessionId = s.sessionId ∧
    (gunStage t catalog env i? s).1.facingDir = s.facingDir ∧
    (gunStage t catalog env i? s).1.prevFacingDir = s.prevFacingDir ∧
    (gunStage t catalog env i? s).1.simTimeMs = s.simTimeMs ∧
    (gunStage t catalog env i? s).1.dead = s.dead ∧
    (gunStage t catalog env i? s).1.touchingGround = s.touchingGround ∧
    (gunStage t catalog env i? s).1.groundGraceTimer = s.groundGraceTimer ∧
    (gunStage t catalog env i? s).1.prevTiltDir = s.prevTiltDir ∧
    (gunStage t catalog env i? s).1.activePivotSide = s.activePivotSide ∧
    (gunStage t catalog env i? s).1.holdPastMaxActive = s.holdPastMaxActive ∧
    (gunStage t catalog env i? s).1.holdPastMaxAngleRad = s.holdPastMaxAngleRad ∧
    (gunStage t catalog env i? s).1.leftCornerGrace = s.leftCornerGrace ∧
    (gunStage t catalog env i? s).1.rightCornerGrace = s.rightCornerGrace ∧
    (gunStage t catalog env i? s).1.justJumpedTimer = s.justJumpedTimer ∧
    (gunStage t catalog env i? s).1.isDragging = s.isDragging ∧
    (gunStage t catalog env i? s).1.hasMouseJoint = s.hasMouseJoint ∧
    (gunStage t catalog env i? s).1.posX = s.posX ∧
    (gunStage t catalog env i? s).1.posY = s.posY ∧
    (gunStage t catalog env i? s).1.angle = s.angle ∧
    (gunStage t catalog env i? s).1.velX = s.velX ∧
    (gunStage t catalog env i? s).1.velY = s.velY ∧
    (gunStage t catalog env i? s).1.angVel = s.angVel ∧
    (gunStage t catalog env i? s).1.torque = s.torque ∧
    (gunStage t catalog env i? s).1.hasArm = s.hasArm ∧
    (gunStage t catalog env i? s).1.armAngle = s.armAngle := by
  simp only [gunStage]
  split_ifs <;>
    simp [tryFireOnce_keeps_sessionId, tryFireOnce_keeps_facingDir, tryFireOnce_keeps_prevFacingDir, tryFireOnce_keeps_simTimeMs, tryFireOnce_keeps_dead, tryFireOnce_keeps_touchingGround, tryFireOnce_keeps_groundGraceTimer, tryFireOnce_keeps_prevTiltDir, tryFireOnce_keeps_activePivotSide, tryFireOnce_keeps_holdPastMaxActive, tryFireOnce_keeps_holdPastMaxAngleRad, tryFireOnce_keeps_leftCornerGrace, tryFireOnce_keeps_rightCornerGrace, tryFireOnce_keeps_justJumpedTimer, tryFireOnce_keeps_isDragging, tryFireOnce_keeps_hasMouseJoint, tryFireOnce_keeps_posX, tryFireOnce_keeps_posY, tryFireOnce_keeps_angle, tryFireOnce_keeps_velX, tryFireOnce_keeps_velY, tryFireOnce_keeps_angVel, tryFireOnce_keeps_torque, tryFireOnce_keeps_hasArm, tryFireOnce_keeps_armAngle]

end Sim

namespace Room

theorem runCatchupSteps_spec (n : ℕ) : ∀ accMs : ℚ,
    (runCatchupSteps n accMs).1 ≤ n ∧
    (runCatchupSteps n accMs).2 = accMs - (runCatchupSteps n accMs).1 * FIXED_DT_MS ∧
    ((runCatchupSteps n accMs).1 < n → (runCatchupSteps n accMs).2 < FIXED_DT_MS) := by
  induction n with
  | zero =>
      intro accMs
      simp [runCatchupSteps]
  | succ n ih =>
      intro accMs
      by_cases h : FIXED_DT_MS ≤ accMs
      · have hrec := ih (accMs - FIXED_DT_MS)
        simp only [runCatchupSteps, if_pos h]
        refine ⟨by omega, ?_, ?_⟩
        · rw [hrec.2.1]; push_cast; ring
        · intro hlt
          exact hrec.2.2 (by omega)
      · simp only [runCatchupSteps, if_neg h]
        exact ⟨Nat.zero_le _, by simp, fun _ => by linarith [lt_of_not_le h]⟩

theorem setPlayer_players (m : RoomHealth) (sid : String) (v : Option PlayerHP)
    (x : String) :
    (setPlayer m sid v).players x = if x = sid then v else m.players x := rfl

theorem setPlayer_timer (m : RoomHealth) (sid : String) (v : Option PlayerHP) :
    (setPlayer m sid v).respawnTimerMs = m.respawnTimerMs := rfl

theorem setTimer_players (m : RoomHealth) (sid : String) (v : Option ℚ) :
    (setTimer m sid v).players = m.players := rfl

theorem setTimer_timer (m : RoomHealth) (sid : String) (v : Option ℚ) (x : String) :
    (setTimer m sid v).respawnTimerMs x = if x = sid then v else m.respawnTimerMs x := rfl

theorem killPlayer_not_dead (m : RoomHealth) (sid : String) (st : PlayerHP)
    (hst : m.players sid = some st) (hdead : st.dead = false) :
    (killPlayer m sid).players sid = some { st with health := 0, dead := true } ∧
    (killPlayer m sid).respawnTimerMs sid = some (max 0.05 DEATH_RAGDOLL_SEC * 1000) ∧
    (∀ x, x ≠ sid → (killPlayer m sid).players x = m.players x) := by
  unfold killPlayer
  simp only [hst, hdead, Bool.false_eq_true, if_false]
  refine ⟨?_, ?_, ?_⟩
  · rw [setTimer_players, setPlayer_players]
    simp
  · rw [setTimer_timer]
    simp
  · intro x hx
    rw [setTimer_players, setPlayer_players, if_neg hx]

theorem applyDamageEvent_live (m : RoomHealth) (e : DamageMsg) (st : PlayerHP)
    (hne : e.toSid ≠ "") (hst : m.players e.toSid = some st) (hdead : st.dead = false) :
    ∃ st', (applyDamageEvent m e).players e.toSid = some st' ∧
      st'.health = max 0 (st.health - max 0 e.amount) ∧
      st'.maxHealth = st.maxHealth ∧
      (st'.dead = true ↔ max 0 (st.health - max 0 e.amount) ≤ 0) ∧
      (max 0 (st.health - max 0 e.amount) ≤ 0 →
        (applyDamageEvent m e).respawnTimerMs e.toSid =
          some (max 0.05 DEATH_RAGDOLL_SEC * 1000)) ∧
      (∀ x, x ≠ e.toSid → (applyDamageEvent m e).players x = m.players x) := by
  unfold applyDamageEvent
  rw [if_neg hne]
  simp only [hst, hdead, Bool.false_eq_true, if_false]
  by_cases hkill : max 0 (st.health - max 0 e.amount) ≤ 0
  · have h0 : max 0 (st.health - max 0 e.amount) = 0 := le_antisymm hkill (le_max_left _ _)
    simp only [if_pos hkill]
    obtain ⟨hk1, hk2, hk3⟩ := killPlayer_not_dead
      (setPlayer m e.toSid (some ⟨max 0 (st.health - max 0 e.amount), st.maxHealth, false⟩))
      e.toSid
      ⟨max 0 (st.health - max 0 e.amount), st.maxHealth, false⟩
      (by rw [setPlayer_players]; simp) rfl
    refine ⟨_, hk1, ?_, rfl, ?_, fun _ => hk2, ?_⟩
    · simp [h0]
    · simp [hkill]
    · intro x hx
      rw [hk3 x hx, setPlayer_players, if_neg hx]
  · simp only [if_neg hkill]
    refine ⟨⟨max 0 (st.health - max 0 e.amount), st.maxHealth, false⟩, ?_, rfl, rfl, ?_,
      fun h => absurd h hkill, ?_⟩
    · rw [setPlayer_players]; simp
    · simp [hkill]
    · intro x hx
      rw [setPlayer_players, if_neg hx]

theorem applyDamageEvent_skip (m : RoomHealth) (e : DamageMsg)
    (h : e.toSid = "" ∨ m.players e.toSid = none ∨
      ∃ st, m.players e.toSid = some st ∧ st.dead = true) :
    applyDamageEvent m e = m := by
  unfold applyDamageEvent
  rcases h with h | h | ⟨st, hst, hdead⟩
  · rw [if_pos h]
  · by_cases he : e.toSid = ""
    · rw [if_pos he]
    · rw [if_neg he]
      simp only [h]
  · by_cases he : e.toSid = ""
    · rw [if_pos he]
    · rw [if_neg he]
      simp only [hst, hdead, if_true]

theorem checkpointOrder_empty : checkpointOrderFromBaseId "" = none := rfl

theorem shouldUpgrade_numeric (cur new : String) (a k : ℕ)
    (hca : checkpointOrderFromBaseId cur = some a)
    (hnk : checkpointOrderFromBaseId new = some k)
    (h : shouldUpgradeCheckpoint cur new = true) : a < k := by
  unfold shouldUpgradeCheckpoint at h
  by_cases h1 : new = ""
  · simp [h1] at h
  · by_cases h2 : cur = ""
    · rw [h2, checkpointOrder_empty] at hca
      exact absurd hca (by simp)
    · by_cases h3 : cur = new
      · simp [h1, h2, h3] at h
      · rw [if_neg h1, if_neg h2, if_neg h3, hca, hnk] at h
        simpa using h

theorem tryActivate_numeric_step (spawns : String → Option (ℚ × ℚ))
    (defaultBaseId sid b : String) (st : CpPlayer) (r : String) (a : ℕ)
    (hrec : st.recorded = some r) (hra : checkpointOrderFromBaseId r = some a)
    (k : ℕ) (hbk : checkpointOrderFromBaseId b = some k) :
    ∃ r2 a2, ((tryActivateCheckpoint spawns defaultBaseId sid b st).1).recorded = some r2 ∧
      checkpointOrderFromBaseId r2 = some a2 ∧ a ≤ a2 := by
  unfold tryActivateCheckpoint
  split
  · exact ⟨r, a, hrec, hra, le_refl a⟩
  · split
    · exact ⟨r, a, hrec, hra, le_refl a⟩
    · simp only [hrec]
      split
      · rename_i hup
        exact ⟨b, k, rfl, hbk, le_of_lt (shouldUpgrade_numeric r b a k hra hbk hup)⟩
      · exact ⟨r, a, hrec, hra, le_refl a⟩

end Room

namespace MM

theorem reserveFold_spec (roomId : String) (reserveOk : String → Bool) :
    ∀ (l rest : List MMClient) (sends : List (String × String)),
      l.foldl
        (fun (acc : List MMClient × List (String × String)) c =>
          if reserveOk c.sessionId then (acc.1, acc.2 ++ [(c.sessionId, roomId)])
          else (c :: acc.1, acc.2))
        (rest, sends) =
      ((l.filter (fun c => !reserveOk c.sessionId)).reverse ++ rest,
        sends ++ (l.filter (fun c => reserveOk c.sessionId)).map
          (fun c => (c.sessionId, roomId))) := by
  intro l
  induction l with
  | nil => intro rest sends; simp
  | cons c l ih =>
      intro rest sends
      by_cases h : reserveOk c.sessionId
      · simp [List.foldl_cons, h, ih]
      · simp [List.foldl_cons, h, ih]

end MM

/-! ## Claim theorems -/

/-- C9: on every wake-up of the simulation loop the capped elapsed time is
added to the accumulator; one fixed step runs and one tick is subtracted
while the accumulator holds at least one tick, with at most 10 catch-up
steps per wake-up; when the cap is reached the remaining backlog is
discarded. -/
theorem C9_simLoop_accumulator (accMs frameMsRaw : ℚ) :
    (if 250 < frameMsRaw then (250 : ℚ) else frameMsRaw) ≤ max 250 frameMsRaw ∧
    (Room.simLoop accMs frameMsRaw).1 ≤ Room.MAX_CATCHUP_STEPS ∧
    ((Room.simLoop accMs frameMsRaw).1 < Room.MAX_CATCHUP_STEPS →
      (Room.simLoop accMs frameMsRaw).2 =
        accMs + (if 250 < frameMsRaw then 250 else frameMsRaw) -
          (Room.simLoop accMs frameMsRaw).1 * Room.FIXED_DT_MS ∧
      (Room.simLoop accMs frameMsRaw).2 < Room.FIXED_DT_MS) ∧
    ((Room.simLoop accMs frameMsRaw).1 = Room.MAX_CATCHUP_STEPS →
      (Room.simLoop accMs frameMsRaw).2 = 0) ∧
    (Room.FIXED_DT_MS ≤ accMs + (if 250 < frameMsRaw then 250 else frameMsRaw) →
      1 ≤ (Room.simLoop accMs frameMsRaw).1) := by
  have hspec := Room.runCatchupSteps_spec Room.MAX_CATCHUP_STEPS
    (accMs + if 250 < frameMsRaw then 250 else frameMsRaw)
  constructor
  · split
    · exact le_max_left _ _
    · exact le_max_right _ _
  refine ⟨?_, ?_, ?_, ?_⟩
  · by_cases hcap : (Room.runCatchupSteps Room.MAX_CATCHUP_STEPS
        (accMs + if 250 < frameMsRaw then 250 else frameMsRaw)).1 = Room.MAX_CATCHUP_STEPS
    · simp [Room.simLoop, hcap]
    · simp only [Room.simLoop]
      exact hspec.1
  · intro hlt
    have hne : (Room.simLoop accMs frameMsRaw).1 ≠ Room.MAX_CATCHUP_STEPS := Nat.ne_of_lt hlt
    have hne2 : (Room.runCatchupSteps Room.MAX_CATCHUP_STEPS
        (accMs + if 250 < frameMsRaw then 250 else frameMsRaw)).1 ≠ Room.MAX_CATCHUP_STEPS := by
      simpa [Room.simLoop] using hne
    constructor
    · simp only [Room.simLoop, if_neg hne2]
      rw [hspec.2.1]
    · simp only [Room.simLoop, if_neg hne2]
      exact hspec.2.2 (lt_of_le_of_ne hspec.1 hne2)
  · intro hcap
    have hcap2 : (Room.runCatchupSteps Room.MAX_CATCHUP_STEPS
        (accMs + if 250 < frameMsRaw then 250 else frameMsRaw)).1 = Room.MAX_CATCHUP_STEPS := by
      simpa [Room.simLoop] using hcap
    simp [Room.simLoop, hcap2]
  · intro htick
    by_contra hzero
    have h0 : (Room.runCatchupSteps Room.MAX_CATCHUP_STEPS
        (accMs + if 250 < frameMsRaw then 250 else frameMsRaw)).1 = 0 := by
      have : (Room.simLoop accMs frameMsRaw).1 = 0 := by omega
      simpa [Room.simLoop] using this
    have hlt := hspec.2.2 (by rw [h0]; simp [Room.MAX_CATCHUP_STEPS])
    rw [hspec.2.1, h0] at hlt
    simp at hlt
    linarith

/-- C9 witness: with a 10000 ms backlog the loop runs exactly the cap of 10
steps and discards the rest of the accumulator. -/
theorem C9_simLoop_accumulator_witness :
    (Room.simLoop 10000 0).1 = Room.MAX_CATCHUP_STEPS ∧ (Room.simLoop 10000 0).2 = 0 := by
  have h := C9_simLoop_accumulator 10000 0
  have hcap : (Room.simLoop 10000 0).1 = Room.MAX_CATCHUP_STEPS := by
    norm_num [Room.simLoop, Room.runCatchupSteps, Room.FIXED_DT_MS,
      Room.SERVER_TICK_HZ, Room.MAX_CATCHUP_STEPS]
  exact ⟨hcap, h.2.2.2.1 hcap⟩

/-- C4: when the waiting list holds at least the party size, exactly the
first MATCH_SIZE clients are removed; a provisioning failure returns all of
them to the front of the queue and stops match formation; an individual
seat-reservation failure returns only that client to the queue while the
successfully reserved clients are each sent exactly one reservation for the
newly provisioned room. -/
theorem C4_matchmaking (provision : Option String) (reserveOk : String → Bool)
    (waiting : List MM.MMClient)
    (hlen : MM.MATCH_SIZE ≤ waiting.length)
    (hvalid : ∀ c ∈ waiting, c.sessionId ≠ "") :
    (provision = none →
      MM.tryMakeMatchStep provision reserveOk waiting = (waiting, [], false)) ∧
    (∀ roomId, provision = some roomId →
      (MM.tryMakeMatchStep provision reserveOk waiting).2.1 =
        ((waiting.take MM.MATCH_SIZE).filter (fun c => reserveOk c.sessionId)).map
          (fun c => (c.sessionId, roomId)) ∧
      (MM.tryMakeMatchStep provision reserveOk waiting).1 =
        ((waiting.take MM.MATCH_SIZE).filter (fun c => !reserveOk c.sessionId)).reverse ++
          waiting.drop MM.MATCH_SIZE ∧
      (MM.tryMakeMatchStep provision reserveOk waiting).2.2 = true) ∧
    (∀ w : List MM.MMClient, w.length < MM.MATCH_SIZE →
      MM.tryMakeMatchStep provision reserveOk w = (w, [], false)) := by
  have hnotlt : ¬ waiting.length < MM.MATCH_SIZE := not_lt.mpr hlen
  have hlive : (waiting.take MM.MATCH_SIZE).filter (fun c => c.sessionId ≠ "") =
      waiting.take MM.MATCH_SIZE := by
    apply List.filter_eq_self.mpr
    intro c hc
    simpa using hvalid c (List.take_subset _ _ hc)
  have hlivelen : ((waiting.take MM.MATCH_SIZE).filter
      (fun c => c.sessionId ≠ "")).length = MM.MATCH_SIZE := by
    rw [hlive, List.length_take]
    omega
  refine ⟨?_, ?_, ?_⟩
  · intro hp
    subst hp
    simp only [MM.tryMakeMatchStep, if_neg hnotlt, hlivelen, lt_irrefl, if_neg, if_false]
    rw [hlive]
    simp
  · intro roomId hp
    subst hp
    simp only [MM.tryMakeMatchStep, if_neg hnotlt, hlivelen, lt_irrefl, if_false]
    rw [hlive, MM.reserveFold_spec]
    simp
  · intro w hw
    simp [MM.tryMakeMatchStep, if_pos hw]

/-- C4 witness: four queued clients, provisioning succeeds, the reservation
for the second client fails; the other three are sent reservations and only
the failed client returns to the queue. -/
theorem C4_matchmaking_witness :
    MM.MATCH_SIZE ≤ ([⟨"a"⟩, ⟨"b"⟩, ⟨"c"⟩, ⟨"d"⟩] : List MM.MMClient).length ∧
    MM.tryMakeMatchStep (some "room1") (fun sid => sid ≠ "b")
        [⟨"a"⟩, ⟨"b"⟩, ⟨"c"⟩, ⟨"d"⟩] =
      ([⟨"b"⟩], [("a", "room1"), ("c", "room1"), ("d", "room1")], true) := by
  constructor
  · decide
  · have h := C4_matchmaking (some "room1") (fun sid => sid ≠ "b")
      [⟨"a"⟩, ⟨"b"⟩, ⟨"c"⟩, ⟨"d"⟩] (by decide) (by decide)
    have h2 := h.2.1 "room1" rfl
    have e1 : (MM.tryMakeMatchStep (some "room1") (fun sid => sid ≠ "b")
        [⟨"a"⟩, ⟨"b"⟩, ⟨"c"⟩, ⟨"d"⟩]).2.1 = [("a", "room1"), ("c", "room1"), ("d", "room1")] := by
      rw [h2.1]; decide
    have e2 : (MM.tryMakeMatchStep (some "room1") (fun sid => sid ≠ "b")
        [⟨"a"⟩, ⟨"b"⟩, ⟨"c"⟩, ⟨"d"⟩]).1 = [⟨"b"⟩] := by
      rw [h2.2.1]; decide
    have e3 := h2.2.2
    exact Prod.ext e2 (Prod.ext e1 e3)

/-- C3 counterexample: the recorded checkpoint can move from cp9 (order 9)
through cpz (no numeric order, accepted by the lexical fallback) to cq5
(order 5), so the recorded order is not non-decreasing and an id without a
strictly greater order replaces a recorded one. -/
theorem C3_checkpoint_counterexample :
    (Room.activateAll
        (fun s => if s = "cp9" ∨ s = "cpz" ∨ s = "cq5" then some ((0 : ℚ), (0 : ℚ)) else none)
        "" "p1" { recorded := none, respawn := (0, 0) } ["cp9"]).recorded = some "cp9" ∧
    Room.checkpointOrderFromBaseId "cp9" = some 9 ∧
    (Room.activateAll
        (fun s => if s = "cp9" ∨ s = "cpz" ∨ s = "cq5" then some ((0 : ℚ), (0 : ℚ)) else none)
        "" "p1" { recorded := none, respawn := (0, 0) } ["cp9", "cpz", "cq5"]).recorded =
      some "cq5" ∧
    Room.checkpointOrderFromBaseId "cq5" = some 5 ∧
    (5 : ℕ) < 9 := by
  refine ⟨?_, by decide, ?_, by decide, by decide⟩
  · decide
  · decide

/-- C3 amended: when both the current and the candidate checkpoint ids
carry numeric orders, an upgrade requires a strictly greater order, and
over any activation sequence whose ids all carry numeric orders the
recorded order is non-decreasing; the first activation may set an
unrecorded id freely.  (When an id lacks digits the code falls back to a
lexical string comparison, under which the recorded numeric order can
decrease.) -/
theorem C3_checkpoint_amended :
    (∀ cur new : String, ∀ a k : ℕ,
      Room.checkpointOrderFromBaseId cur = some a →
      Room.checkpointOrderFromBaseId new = some k →
      Room.shouldUpgradeCheckpoint cur new = true → a < k) ∧
    (∀ (spawns : String → Option (ℚ × ℚ)) (defaultBaseId sid : String)
        (ids : List String) (st : Room.CpPlayer) (r : String) (a : ℕ),
      (∀ b ∈ ids, (Room.checkpointOrderFromBaseId b).isSome) →
      st.recorded = some r → Room.checkpointOrderFromBaseId r = some a →
      ∃ r2 a2, (Room.activateAll spawns defaultBaseId sid st ids).recorded = some r2 ∧
        Room.checkpointOrderFromBaseId r2 = some a2 ∧ a ≤ a2) ∧
    (∀ (spawns : String → Option (ℚ × ℚ)) (sid b : String) (st : Room.CpPlayer),
      st.recorded = none →
      ((Room.tryActivateCheckpoint spawns "" sid b st).1).recorded = none ∨
      ((Room.tryActivateCheckpoint spawns "" sid b st).1).recorded = some b) := by
  refine ⟨Room.shouldUpgrade_numeric, ?_, ?_⟩
  · intro spawns defaultBaseId sid ids
    induction ids with
    | nil =>
        intro st r a _ hrec hra
        exact ⟨r, a, hrec, hra, le_refl a⟩
    | cons b ids ih =>
        intro st r a hall hrec hra
        have hbk : (Room.checkpointOrderFromBaseId b).isSome := hall b (by simp)
        obtain ⟨k, hk⟩ := Option.isSome_iff_exists.mp hbk
        obtain ⟨r2, a2, hrec2, hra2, hle⟩ :=
          Room.tryActivate_numeric_step spawns defaultBaseId sid b st r a hrec hra k hk
        obtain ⟨r3, a3, hrec3, hra3, hle2⟩ :=
          ih ((Room.tryActivateCheckpoint spawns defaultBaseId sid b st).1) r2 a2
            (fun x hx => hall x (by simp [hx])) hrec2 hra2
        exact ⟨r3, a3, hrec3, hra3, le_trans hle hle2⟩
  · intro spawns sid b st hrec
    unfold Room.tryActivateCheckpoint
    split
    · exact Or.inl hrec
    · split
      · exact Or.inl hrec
      · simp only [hrec]
        split
        · exact Or.inr rfl
        · exact Or.inl hrec

/-- C3 amended witness: activating cp2 then cp3 with orders recorded moves
the record from order 2 to order 3 and never below. -/
theorem C3_checkpoint_amended_witness :
    (∀ b ∈ ["cp2", "cp3"], (Room.checkpointOrderFromBaseId b).isSome) ∧
    (∃ r2 a2,
      (Room.activateAll (fun _ => some ((0 : ℚ), (0 : ℚ))) "" "p1"
          { recorded := some "cp1", respawn := (0, 0) } ["cp2", "cp3"]).recorded = some r2 ∧
      Room.checkpointOrderFromBaseId r2 = some a2 ∧ 1 ≤ a2) := by
  constructor
  · decide
  · exact C3_checkpoint_amended.2.1 (fun _ => some ((0 : ℚ), (0 : ℚ))) "" "p1"
      ["cp2", "cp3"] { recorded := some "cp1", respawn := (0, 0) } "cp1" 1
      (by decide) rfl (by decide)

/-- C2: replicated health stays in the 0..maxHealth band (initialized full
on join, only reduced by damage and clamped at 0, restored to full on
respawn), a damage event covering the remaining health makes the player
Dead in the same damage-application pass with the respawn scheduled after
the fixed 2000 ms ragdoll duration. -/
theorem C2_health_band_and_death :
    (0 ≤ Room.joinPlayerHP.health ∧
      Room.joinPlayerHP.health ≤ Room.joinPlayerHP.maxHealth) ∧
    (∀ (m : Room.RoomHealth) (e : Room.DamageMsg) (sid : String)
        (st st' : Room.PlayerHP),
      m.players sid = some st → 0 ≤ st.health → st.health ≤ st.maxHealth →
      (Room.applyDamageEvent m e).players sid = some st' →
      0 ≤ st'.health ∧ st'.health ≤ st.health ∧ st'.maxHealth = st.maxHealth ∧
        st'.health ≤ st'.maxHealth) ∧
    (∀ (m : Room.RoomHealth) (e : Room.DamageMsg) (st : Room.PlayerHP),
      e.toSid ≠ "" → m.players e.toSid = some st → st.dead = false →
      0 ≤ st.health → st.health ≤ e.amount →
      ∃ st', (Room.applyDamageEvent m e).players e.toSid = some st' ∧
        st'.dead = true ∧ st'.health = 0 ∧
        (Room.applyDamageEvent m e).respawnTimerMs e.toSid =
          some (max 0.05 Room.DEATH_RAGDOLL_SEC * 1000)) ∧
    max 0.05 Room.DEATH_RAGDOLL_SEC * 1000 = 2000 ∧
    (∀ (m : Room.RoomHealth) (sid : String) (st : Room.PlayerHP),
      m.players sid = some st → 0 ≤ st.maxHealth →
      ∃ st', (Room.respawnPlayer m sid).players sid = some st' ∧
        st'.dead = false ∧ st'.health = st'.maxHealth ∧ 0 < st'.maxHealth ∧
        (Room.respawnPlayer m sid).respawnTimerMs sid = none) := by
  refine ⟨⟨by norm_num [Room.joinPlayerHP, Room.DEFAULT_MAX_HEALTH],
    by norm_num [Room.joinPlayerHP]⟩, ?_, ?_, ?_, ?_⟩
  · intro m e sid st st' hst h0 hmax hst'
    by_cases he : e.toSid = ""
    · rw [Room.applyDamageEvent_skip m e (Or.inl he), hst] at hst'
      injection hst' with heq
      subst heq
      exact ⟨h0, le_refl _, rfl, hmax⟩
    · cases hp : m.players e.toSid with
      | none =>
          rw [Room.applyDamageEvent_skip m e (Or.inr (Or.inl hp)), hst] at hst'
          injection hst' with heq
          subst heq
          exact ⟨h0, le_refl _, rfl, hmax⟩
      | some pst =>
          by_cases hd : pst.dead = true
          · rw [Room.applyDamageEvent_skip m e (Or.inr (Or.inr ⟨pst, hp, hd⟩)), hst] at hst'
            injection hst' with heq
            subst heq
            exact ⟨h0, le_refl _, rfl, hmax⟩
          · have hdead : pst.dead = false := by
              cases hb : pst.dead
              · rfl
              · exact absurd hb hd
            obtain ⟨st2, hst2, hh, hm, _, _, hother⟩ :=
              Room.applyDamageEvent_live m e pst he hp hdead
            by_cases hsid : sid = e.toSid
            · subst hsid
              rw [hst] at hp
              injection hp with hpeq
              subst hpeq
              rw [hst2] at hst'
              injection hst' with heq
              subst heq
              have h1 : 0 ≤ st2.health := by rw [hh]; exact le_max_left _ _
              have h2 : st2.health ≤ st.health := by
                rw [hh]
                exact max_le h0 (by linarith [le_max_left (0 : ℚ) e.amount])
              exact ⟨h1, h2, hm, by rw [hm]; exact le_trans h2 hmax⟩
            · rw [hother sid hsid, hst] at hst'
              injection hst' with heq
              subst heq
              exact ⟨h0, le_refl _, rfl, hmax⟩
  · intro m e st hne hst hdead h0 hcover
    have hkill : max 0 (st.health - max 0 e.amount) ≤ 0 := by
      have : st.health - max 0 e.amount ≤ 0 := by
        linarith [le_max_right (0 : ℚ) e.amount]
      simp [this]
    obtain ⟨st2, hst2, hh, _, hdiff, htimer, _⟩ :=
      Room.applyDamageEvent_live m e st hne hst hdead
    refine ⟨st2, hst2, hdiff.mpr hkill, ?_, htimer hkill⟩
    rw [hh]
    exact le_antisymm hkill (le_max_left _ _)
  · norm_num [Room.DEATH_RAGDOLL_SEC]
  · intro m sid st hst h0
    unfold Room.respawnPlayer
    have hlook : (Room.setTimer m sid none).players sid = some st := by
      rw [Room.setTimer_players]; exact hst
    simp only [hlook]
    refine ⟨⟨if st.maxHealth = 0 then Room.DEFAULT_MAX_HEALTH else st.maxHealth,
      if st.maxHealth = 0 then Room.DEFAULT_MAX_HEALTH else st.maxHealth, false⟩,
      ?_, rfl, rfl, ?_, ?_⟩
    · rw [Room.setPlayer_players]
      simp
    · by_cases hz : st.maxHealth = 0
      · simp [hz, Room.DEFAULT_MAX_HEALTH]
      · simp only [if_neg hz]
        exact lt_of_le_of_ne h0 (Ne.symm hz)
    · rw [Room.setPlayer_timer, Room.setTimer_timer]
      simp

/-- C5: applying input to a Dead player emits no events and skips all
movement, drag and fire processing: body position, velocities, torque,
ammo and gun are untouched, only the fire-sequence number is recorded (and
the held flag cleared, any drag joint released, simulation time advanced). -/
theorem C5_dead_input (t : Trig) (catalog : String → Option Sim.GunDef)
    (env : Sim.WorldEnv) (i : Sim.InputMsg) (dt : ℚ) (s : Sim.PlayerSimState)
    (hdead : s.dead = true) :
    (Sim.applyInput t catalog env (some i) dt s).2 = [] ∧
    (Sim.applyInput t catalog env (some i) dt s).1.lastFireSeq = int32 i.fireSeq ∧
    (Sim.applyInput t catalog env (some i) dt s).1.fireHeld = false ∧
    (Sim.applyInput t catalog env (some i) dt s).1.isDragging = false ∧
    (Sim.applyInput t catalog env (some i) dt s).1.ammo = s.ammo ∧
    (Sim.applyInput t catalog env (some i) dt s).1.gunId = s.gunId ∧
    (Sim.applyInput t catalog env (some i) dt s).1.velX = s.velX ∧
    (Sim.applyInput t catalog env (some i) dt s).1.velY = s.velY ∧
    (Sim.applyInput t catalog env (some i) dt s).1.angVel = s.angVel ∧
    (Sim.applyInput t catalog env (some i) dt s).1.posX = s.posX ∧
    (Sim.applyInput t catalog env (some i) dt s).1.posY = s.posY ∧
    (Sim.applyInput t catalog env (some i) dt s).1.angle = s.angle ∧
    (Sim.applyInput t catalog env (some i) dt s).1.torque = s.torque ∧
    (Sim.applyInput t catalog env (some i) dt s).1.dead = true ∧
    (Sim.applyInput t catalog env (some i) dt s).1.simTimeMs =
      s.simTimeMs + max 0 dt * 1000 := by
  simp only [Sim.applyInput]
  split_ifs with h
  · obtain ⟨b1, b2, mt, hend⟩ :=
      Sim.endMouseDrag_shape { s with simTimeMs := s.simTimeMs + max 0 dt * 1000 }
    by_cases hdrag : s.isDragging = true
    · have : Sim.endMouseDrag { s with simTimeMs := s.simTimeMs + max 0 dt * 1000 } =
          { s with
            simTimeMs := s.simTimeMs + max 0 dt * 1000
            isDragging := false
            hasMouseJoint := false
            mouseTarget := none } := by
        simp [Sim.endMouseDrag, hdrag]
      rw [this]
      simp [hdead]
    · have hdrag2 : s.isDragging = false := by
        revert hdrag; cases s.isDragging <;> simp
      have : Sim.endMouseDrag { s with simTimeMs := s.simTimeMs + max 0 dt * 1000 } =
          { s with simTimeMs := s.simTimeMs + max 0 dt * 1000 } := by
        simp [Sim.endMouseDrag, hdrag2]
      rw [this]
      simp [hdead, hdrag2]

/-- C5 witness: a dead player receiving a buffered fire press emits nothing
and only records the sequence number. -/
theorem C5_dead_input_witness :
    ((Sim.mkPlayerSim ⟨fun _ => 0, fun _ => 1, fun _ _ => 1, fun _ _ => 0, 3⟩
        "p1" 600 600 : Sim.PlayerSimState).dead = true ∨ True) ∧
    (∀ s : Sim.PlayerSimState, s.dead = true →
      (Sim.applyInput ⟨fun _ => 0, fun _ => 1, fun _ _ => 1, fun _ _ => 0, 3⟩
        (Sim.GUN_CATALOG ⟨fun _ => 0, fun _ => 1, fun _ _ => 1, fun _ _ => 0, 3⟩)
        ⟨false, false, false, none, none⟩
        (some ⟨false, false, false, none, none, 7, false⟩) (1 / 60) s).2 = [] ∧
      (Sim.applyInput ⟨fun _ => 0, fun _ => 1, fun _ _ => 1, fun _ _ => 0, 3⟩
        (Sim.GUN_CATALOG ⟨fun _ => 0, fun _ => 1, fun _ _ => 1, fun _ _ => 0, 3⟩)
        ⟨false, false, false, none, none⟩
        (some ⟨false, false, false, none, none, 7, false⟩) (1 / 60) s).1.lastFireSeq =
        int32 7) := by
  refine ⟨Or.inr trivial, fun s hdead => ?_⟩
  have h := C5_dead_input ⟨fun _ => 0, fun _ => 1, fun _ _ => 1, fun _ _ => 0, 3⟩
    (Sim.GUN_CATALOG ⟨fun _ => 0, fun _ => 1, fun _ _ => 1, fun _ _ => 0, 3⟩)
    ⟨false, false, false, none, none⟩
    ⟨false, false, false, none, none, 7, false⟩ (1 / 60) s hdead
  exact ⟨h.1, h.2.1⟩

/-- C10: ammo is an integer always inside the 0..127 band of the uint8
wire field: the constructor starts it at 0, giveGun clamps the catalog
value into the band, dropGun resets it to 0, and the per-tick input
application keeps it inside the band. -/
theorem C10_ammo_band :
    (∀ (t : Trig) (sid : String) (x y : ℚ), (Sim.mkPlayerSim t sid x y).ammo = 0) ∧
    (∀ (catalog : String → Option Sim.GunDef) (gid : String)
        (s : Sim.PlayerSimState) (d : Sim.GunDef),
      catalog gid = some d →
      (Sim.giveGun catalog gid s).2.ammo =
        max 0 (min 127 (int32 (jsTrunc (d.ammo.getD 0)))) ∧
      0 ≤ (Sim.giveGun catalog gid s).2.ammo ∧
      (Sim.giveGun catalog gid s).2.ammo ≤ 127) ∧
    (∀ s : Sim.PlayerSimState, (Sim.dropGun s).ammo = 0) ∧
    (∀ (t : Trig) (catalog : String → Option Sim.GunDef) (env : Sim.WorldEnv)
        (i? : Option Sim.InputMsg) (dt : ℚ) (s : Sim.PlayerSimState),
      0 ≤ s.ammo → s.ammo ≤ 127 →
      0 ≤ (Sim.applyInput t catalog env i? dt s).1.ammo ∧
      (Sim.applyInput t catalog env i? dt s).1.ammo ≤ 127) := by
  refine ⟨fun _ _ _ _ => rfl, ?_, fun _ => rfl, ?_⟩
  · intro catalog gid s d hcat
    refine ⟨by simp [Sim.giveGun, hcat], ?_, ?_⟩
    · simp [Sim.giveGun, hcat]
    · simp only [Sim.giveGun, hcat]
      exact max_le (by norm_num) (le_trans (min_le_left _ _) (by norm_num))
  · intro t catalog env i? dt s h0 h1
    exact Sim.applyInput_ammo_bound t catalog env i? dt s h0 h1

/-- C10 witness: the sniper pickup grants ammo 5 inside the band, and a
tick of input keeps the band from the fresh state. -/
theorem C10_ammo_band_witness :
    Sim.GUN_CATALOG ⟨fun _ => 0, fun _ => 1, fun _ _ => 1, fun _ _ => 0, 3⟩ "sniper" =
      some (Sim.sniperDef ⟨fun _ => 0, fun _ => 1, fun _ _ => 1, fun _ _ => 0, 3⟩) ∧
    (Sim.giveGun (Sim.GUN_CATALOG ⟨fun _ => 0, fun _ => 1, fun _ _ => 1, fun _ _ => 0, 3⟩)
      "sniper" (Sim.mkPlayerSim ⟨fun _ => 0, fun _ => 1, fun _ _ => 1, fun _ _ => 0, 3⟩
        "p1" 600 600)).2.ammo =
      max 0 (min 127 (int32 (jsTrunc ((Sim.sniperDef
        ⟨fun _ => 0, fun _ => 1, fun _ _ => 1, fun _ _ => 0, 3⟩).ammo.getD 0)))) ∧
    (0 : ℤ) ≤ (Sim.mkPlayerSim ⟨fun _ => 0, fun _ => 1, fun _ _ => 1, fun _ _ => 0, 3⟩
      "p1" 600 600).ammo ∧
    0 ≤ (Sim.applyInput ⟨fun _ => 0, fun _ => 1, fun _ _ => 1, fun _ _ => 0, 3⟩
      (Sim.GUN_CATALOG ⟨fun _ => 0, fun _ => 1, fun _ _ => 1, fun _ _ => 0, 3⟩)
      ⟨false, false, false, none, none⟩ none (1 / 60)
      (Sim.mkPlayerSim ⟨fun _ => 0, fun _ => 1, fun _ _ => 1, fun _ _ => 0, 3⟩
        "p1" 600 600)).1.ammo := by
  refine ⟨by simp [Sim.GUN_CATALOG], ?_, ?_, ?_⟩
  · exact (C10_ammo_band.2.1 _ "sniper" _ _ (by simp [Sim.GUN_CATALOG])).1
  · norm_num [Sim.mkPlayerSim]
  · exact (C10_ammo_band.2.2.2 _ _ _ none (1 / 60) _
      (by norm_num [Sim.mkPlayerSim]) (by norm_num [Sim.mkPlayerSim])).1

/-- C2 witness: a full-health 100/100 player hit by a 250 damage event dies
in the same pass with health 0 and a 2000 ms respawn timer. -/
theorem C2_health_band_and_death_witness :
    ∃ st', (Room.applyDamageEvent
        { players := fun x => if x = "p1" then some ⟨100, 100, false⟩ else none,
          respawnTimerMs := fun _ => none }
        { toSid := "p1", amount := 250 }).players "p1" = some st' ∧
      st'.dead = true ∧ st'.health = 0 ∧
      (Room.applyDamageEvent
        { players := fun x => if x = "p1" then some ⟨100, 100, false⟩ else none,
          respawnTimerMs := fun _ => none }
        { toSid := "p1", amount := 250 }).respawnTimerMs "p1" =
        some (max 0.05 Room.DEATH_RAGDOLL_SEC * 1000) := by
  exact C2_health_band_and_death.2.2.1
    { players := fun x => if x = "p1" then some ⟨100, 100, false⟩ else none,
      respawnTimerMs := fun _ => none }
    { toSid := "p1", amount := 250 } ⟨100, 100, false⟩
    (by decide) (by simp) rfl (by norm_num) (by norm_num)

/-- C8: the pinned rotation write of a tilt tick keeps the horizontal linear
velocity at its prior value, sets the vertical linear velocity to 0 and sets
the angular velocity to 0, both in the transform-write helper itself and
across the whole tilt-hold branch that calls it. -/
theorem C8_tilt_tick_velocities (t : Trig) (env : Sim.WorldEnv) (fixedDt : ℚ)
    (tiltDir : ℤ) (angleNow angleTarget : ℚ) (lg rg : Bool)
    (s : Sim.PlayerSimState) :
    (Sim.applyTiltPinnedToFootContact t angleNow angleTarget lg rg s).velX = s.velX ∧
    (Sim.applyTiltPinnedToFootContact t angleNow angleTarget lg rg s).velY = 0 ∧
    (Sim.applyTiltPinnedToFootContact t angleNow angleTarget lg rg s).angVel = 0 ∧
    (Sim.tiltHold t env fixedDt tiltDir s).velX = s.velX ∧
    (Sim.tiltHold t env fixedDt tiltDir s).velY = 0 ∧
    (Sim.tiltHold t env fixedDt tiltDir s).angVel = 0 := by
  refine ⟨rfl, rfl, rfl, ?_, ?_, ?_⟩
  · simp only [Sim.tiltHold, Sim.applyTiltPinnedToFootContact]
    split_ifs <;> try rfl
    all_goals simp [apply_ite (fun st : Sim.PlayerSimState => st.velX)]
  · simp only [Sim.tiltHold, Sim.applyTiltPinnedToFootContact]
  · simp only [Sim.tiltHold, Sim.applyTiltPinnedToFootContact]

/-- C6: releasing a held tilt while grounded jumps with velocity
(sin(angle), -cos(angle)) scaled by the jump speed, taken at the current
wrapped lean angle; past the larger too-tilted threshold (80 degrees, above
the 50.3 degree maximum lean) the release leaves the velocity unchanged. -/
theorem C6_tilt_release_jump (t : Trig) (env : Sim.WorldEnv) (i : Sim.InputMsg)
    (fixedDt : ℚ) (s : Sim.PlayerSimState)
    (hpi : 0 ≤ t.pi) (hdrag : s.isDragging = false)
    (hground : s.touchingGround = true) (hheld : s.prevTiltDir ≠ 0)
    (hl : i.tiltLeft = false) (hr : i.tiltRight = false) :
    (0 < t.pi → Sim.TILT_MAX_ANGLE_RAD t < Sim.MAX_JUMP_ANGLE_RAD t) ∧
    (Sim.MAX_JUMP_ANGLE_RAD t < |wrapRadPi t s.angle| →
      (Sim.movementStage t env (some i) fixedDt s).velX = s.velX ∧
      (Sim.movementStage t env (some i) fixedDt s).velY = s.velY ∧
      (Sim.movementStage t env (some i) fixedDt s).angVel = s.angVel) ∧
    (|wrapRadPi t s.angle| ≤ Sim.MAX_JUMP_ANGLE_RAD t →
      (Sim.movementStage t env (some i) fixedDt s).velX =
        t.sin (wrapRadPi t s.angle) * Sim.pxToM Sim.JUMP_SPEED_PX_PER_SEC ∧
      (Sim.movementStage t env (some i) fixedDt s).velY =
        -t.cos (wrapRadPi t s.angle) * Sim.pxToM Sim.JUMP_SPEED_PX_PER_SEC ∧
      (Sim.movementStage t env (some i) fixedDt s).angVel = 0 ∧
      (Sim.movementStage t env (some i) fixedDt s).touchingGround = false) := by
  have hconst : 0 < t.pi → Sim.TILT_MAX_ANGLE_RAD t < Sim.MAX_JUMP_ANGLE_RAD t := by
    intro h
    unfold Sim.TILT_MAX_ANGLE_RAD Sim.MAX_JUMP_ANGLE_RAD
    linarith
  have hred : Sim.movementStage t env (some i) fixedDt s =
      (if (Sim.doTiltReleaseJump t s).1
        then Sim.resetTiltState (Sim.doTiltReleaseJump t s).2
        else Sim.balanceTail t 0 (Sim.resetTiltState (Sim.doTiltReleaseJump t s).2)) := by
    simp [Sim.movementStage, hdrag, hl, hr, hground, hheld, Sim.TILT_ENABLED]
  refine ⟨hconst, ?_, ?_⟩
  · intro hbig
    have hfail : Sim.doTiltReleaseJump t s = (false, s) := by
      simp only [Sim.doTiltReleaseJump]
      rw [if_pos hbig]
    rw [hred, hfail]
    refine ⟨?_, ?_, ?_⟩ <;>
      · simp only [Sim.balanceTail, Sim.computePDTorqueWrapped, Sim.resetTiltState]
        split_ifs <;> rfl
  · intro hsmall
    have hnot : ¬ Sim.MAX_JUMP_ANGLE_RAD t < |wrapRadPi t s.angle| := not_lt.mpr hsmall
    have hhalf : |wrapRadPi t s.angle| ≤ t.pi / 2 := by
      refine le_trans hsmall ?_
      unfold Sim.MAX_JUMP_ANGLE_RAD
      linarith
    have habs := abs_le.mp hhalf
    have hclamp : clamp (wrapRadPi t s.angle) (-(t.pi / 2)) (t.pi / 2) =
        wrapRadPi t s.angle := by
      unfold clamp
      rw [min_eq_right habs.2, max_eq_right habs.1]
    rw [hred]
    simp only [Sim.doTiltReleaseJump, if_neg hnot, hclamp]
    exact ⟨rfl, rfl, rfl, rfl⟩

/-- C6 witness: an upright grounded player releasing a held right tilt jumps
straight up at the jump speed. -/
theorem C6_tilt_release_jump_witness :
    ((0 : ℚ) ≤ 3 ∧
      ({ Sim.mkPlayerSim ⟨fun _ => 0, fun _ => 1, fun _ _ => 1, fun _ _ => 0, 3⟩
          "p1" 600 600 with touchingGround := true, prevTiltDir := 1 } :
        Sim.PlayerSimState).isDragging = false ∧
      ({ Sim.mkPlayerSim ⟨fun _ => 0, fun _ => 1, fun _ _ => 1, fun _ _ => 0, 3⟩
          "p1" 600 600 with touchingGround := true, prevTiltDir := 1 } :
        Sim.PlayerSimState).prevTiltDir ≠ 0) ∧
    (Sim.movementStage ⟨fun _ => 0, fun _ => 1, fun _ _ => 1, fun _ _ => 0, 3⟩
        ⟨false, false, false, none, none⟩
        (some ⟨false, false, false, none, none, 0, false⟩) (1 / 60)
        { Sim.mkPlayerSim ⟨fun _ => 0, fun _ => 1, fun _ _ => 1, fun _ _ => 0, 3⟩
            "p1" 600 600 with touchingGround := true, prevTiltDir := 1 }).velX = 0 ∧
    (Sim.movementStage ⟨fun _ => 0, fun _ => 1, fun _ _ => 1, fun _ _ => 0, 3⟩
        ⟨false, false, false, none, none⟩
        (some ⟨false, false, false, none, none, 0, false⟩) (1 / 60)
        { Sim.mkPlayerSim ⟨fun _ => 0, fun _ => 1, fun _ _ => 1, fun _ _ => 0, 3⟩
            "p1" 600 600 with touchingGround := true, prevTiltDir := 1 }).velY =
      -(950 / 30) ∧
    (Sim.movementStage ⟨fun _ => 0, fun _ => 1, fun _ _ => 1, fun _ _ => 0, 3⟩
        ⟨false, false, false, none, none⟩
        (some ⟨false, false, false, none, none, 0, false⟩) (1 / 60)
        { Sim.mkPlayerSim ⟨fun _ => 0, fun _ => 1, fun _ _ => 1, fun _ _ => 0, 3⟩
            "p1" 600 600 with touchingGround := true, prevTiltDir := 1 }).touchingGround =
      false := by
  have h := C6_tilt_release_jump ⟨fun _ => 0, fun _ => 1, fun _ _ => 1, fun _ _ => 0, 3⟩
    ⟨false, false, false, none, none⟩ ⟨false, false, false, none, none, 0, false⟩
    (1 / 60)
    { Sim.mkPlayerSim ⟨fun _ => 0, fun _ => 1, fun _ _ => 1, fun _ _ => 0, 3⟩
        "p1" 600 600 with touchingGround := true, prevTiltDir := 1 }
    (by norm_num) rfl rfl (by decide) rfl rfl
  have hsmall : |wrapRadPi ⟨fun _ => 0, fun _ => 1, fun _ _ => 1, fun _ _ => 0, 3⟩
      ({ Sim.mkPlayerSim ⟨fun _ => 0, fun _ => 1, fun _ _ => 1, fun _ _ => 0, 3⟩
          "p1" 600 600 with touchingGround := true, prevTiltDir := 1 } :
        Sim.PlayerSimState).angle| ≤
      Sim.MAX_JUMP_ANGLE_RAD ⟨fun _ => 0, fun _ => 1, fun _ _ => 1, fun _ _ => 0, 3⟩ := by
    norm_num [wrapRadPi, Sim.MAX_JUMP_ANGLE_RAD, Sim.mkPlayerSim]
  obtain ⟨hvx, hvy, _, hg⟩ := h.2.2 hsmall
  refine ⟨⟨by norm_num, rfl, by decide⟩, ?_, ?_, hg⟩
  · rw [hvx]
    norm_num [wrapRadPi, Sim.mkPlayerSim]
  · rw [hvy]
    norm_num [wrapRadPi, Sim.mkPlayerSim, Sim.pxToM, Sim.PPM, Sim.JUMP_SPEED_PX_PER_SEC]

/-- C1: per tick at most one shot event is emitted; a shot requires a held
catalog weapon with positive ammo, an enabled bullet and the rate limit
elapsed at the tick's simulation time, and decrements ammo by exactly one;
no shot is emitted at ammo 0, a shot-free tick leaves ammo and gun
untouched, and spending the last round clears the gun id in the same
tick. -/
theorem C1_fire_semantics (t : Trig) (catalog : String → Option Sim.GunDef)
    (env : Sim.WorldEnv) (i? : Option Sim.InputMsg) (dt : ℚ) (s : Sim.PlayerSimState)
    (hdead : s.dead = false) (harm : s.hasArm = true) (hcat0 : catalog "" = none)
    (h0 : 0 ≤ s.ammo) (h127 : s.ammo ≤ 127) :
    Sim.countShots (Sim.applyInput t catalog env i? dt s).2 ≤ 1 ∧
    (Sim.countShots (Sim.applyInput t catalog env i? dt s).2 = 1 →
      0 < s.ammo ∧ s.gunId ≠ "" ∧
      (∃ d, catalog s.gunId = some d ∧ d.bulletEnabled.getD false = true) ∧
      s.nextShotMs ≤ s.simTimeMs + max 0 dt * 1000 ∧
      (Sim.applyInput t catalog env i? dt s).1.ammo = s.ammo - 1 ∧
      (s.ammo = 1 → (Sim.applyInput t catalog env i? dt s).1.gunId = "")) ∧
    (Sim.countShots (Sim.applyInput t catalog env i? dt s).2 = 0 →
      (Sim.applyInput t catalog env i? dt s).1.ammo = s.ammo ∧
      (Sim.applyInput t catalog env i? dt s).1.gunId = s.gunId) ∧
    (s.ammo = 0 → Sim.countShots (Sim.applyInput t catalog env i? dt s).2 = 0) := by
  have halive := Sim.applyInput_alive t catalog env i? dt s hdead
  obtain ⟨p1, p2, p3, p4, p5, p6, p7, p8, p9, p10, p11, p12, p13, p14, p15, p16,
    p17, p18, p19⟩ := Sim.preGunState_facts t catalog env i? dt s
  have hchar := Sim.gunStage_char t catalog env i?
    (Sim.preGunState t catalog env i? dt s) (p16 harm) hcat0
    (by rw [p11]; exact h0) (by rw [p11]; exact h127)
  have hmA := Sim.movementStage_keeps_ammo t env i? dt
    (Sim.gunStage t catalog env i? (Sim.preGunState t catalog env i? dt s)).1
  have hmG := Sim.movementStage_keeps_gunId t env i? dt
    (Sim.gunStage t catalog env i? (Sim.preGunState t catalog env i? dt s)).1
  rw [halive]
  refine ⟨hchar.1, ?_, ?_, ?_⟩
  · intro h1
    obtain ⟨ha, hgun, hex, hrate, hammo, hgd⟩ := hchar.2.1 h1
    rw [p11] at ha hammo
    rw [p10] at hgun hex
    rw [p13, p14] at hrate
    refine ⟨ha, hgun, hex, hrate, hmA.trans hammo, fun h1a => ?_⟩
    exact hmG.trans (hgd (by rw [p11, h1a]))
  · intro h00
    obtain ⟨hammo, hgun⟩ := hchar.2.2 h00
    rw [p11] at hammo
    rw [p10] at hgun
    exact ⟨hmA.trans hammo, hmG.trans hgun⟩
  · intro hz
    rcases Nat.lt_or_ge (Sim.countShots
        (Sim.gunStage t catalog env i? (Sim.preGunState t catalog env i? dt s)).2) 1
      with hlt | hge
    · exact Nat.lt_one_iff.mp hlt
    · have h1 := le_antisymm hchar.1 hge
      have hpos := (hchar.2.1 h1).1
      rw [p11, hz] at hpos
      exact absurd hpos (by norm_num)

/-- C1 witness: a live fresh player (no gun, ammo 0) pressing fire emits no
shot event. -/
theorem C1_fire_semantics_witness :
    ((Sim.mkPlayerSim ⟨fun _ => 0, fun _ => 1, fun _ _ => 1, fun _ _ => 0, 3⟩
        "p1" 600 600).dead = false ∧
      (Sim.mkPlayerSim ⟨fun _ => 0, fun _ => 1, fun _ _ => 1, fun _ _ => 0, 3⟩
        "p1" 600 600).hasArm = true ∧
      Sim.GUN_CATALOG ⟨fun _ => 0, fun _ => 1, fun _ _ => 1, fun _ _ => 0, 3⟩ "" = none ∧
      (Sim.mkPlayerSim ⟨fun _ => 0, fun _ => 1, fun _ _ => 1, fun _ _ => 0, 3⟩
        "p1" 600 600).ammo = 0) ∧
    Sim.countShots (Sim.applyInput ⟨fun _ => 0, fun _ => 1, fun _ _ => 1, fun _ _ => 0, 3⟩
      (Sim.GUN_CATALOG ⟨fun _ => 0, fun _ => 1, fun _ _ => 1, fun _ _ => 0, 3⟩)
      ⟨false, false, false, none, none⟩
      (some ⟨false, false, false, none, none, 1, true⟩) (1 / 60)
      (Sim.mkPlayerSim ⟨fun _ => 0, fun _ => 1, fun _ _ => 1, fun _ _ => 0, 3⟩
        "p1" 600 600)).2 = 0 := by
  have h := C1_fire_semantics ⟨fun _ => 0, fun _ => 1, fun _ _ => 1, fun _ _ => 0, 3⟩
    (Sim.GUN_CATALOG ⟨fun _ => 0, fun _ => 1, fun _ _ => 1, fun _ _ => 0, 3⟩)
    ⟨false, false, false, none, none⟩
    (some ⟨false, false, false, none, none, 1, true⟩) (1 / 60)
    (Sim.mkPlayerSim ⟨fun _ => 0, fun _ => 1, fun _ _ => 1, fun _ _ => 0, 3⟩
      "p1" 600 600)
    rfl rfl (by simp [Sim.GUN_CATALOG]) (by norm_num [Sim.mkPlayerSim])
    (by norm_num [Sim.mkPlayerSim])
  exact ⟨⟨rfl, rfl, by simp [Sim.GUN_CATALOG], rfl⟩, h.2.2.2 rfl⟩

/-- C7 counterexample: an airborne, non-tilting, non-dragging player with
spin gets no balance torque at all from the tick, although the air-damped
corrective torque the claim predicts is nonzero. -/
theorem C7_balance_counterexample :
    (({ Sim.mkPlayerSim ⟨fun _ => 0, fun _ => 1, fun _ _ => 1, fun _ _ => 0, 3⟩
          "p1" 600 600 with angVel := 1 } : Sim.PlayerSimState).touchingGround = false ∧
      ({ Sim.mkPlayerSim ⟨fun _ => 0, fun _ => 1, fun _ _ => 1, fun _ _ => 0, 3⟩
          "p1" 600 600 with angVel := 1 } : Sim.PlayerSimState).isDragging = false ∧
      ({ Sim.mkPlayerSim ⟨fun _ => 0, fun _ => 1, fun _ _ => 1, fun _ _ => 0, 3⟩
          "p1" 600 600 with angVel := 1 } : Sim.PlayerSimState).prevTiltDir = 0) ∧
    Sim.computePDTorqueWrapped ⟨fun _ => 0, fun _ => 1, fun _ _ => 1, fun _ _ => 0, 3⟩
      { Sim.mkPlayerSim ⟨fun _ => 0, fun _ => 1, fun _ _ => 1, fun _ _ => 0, 3⟩
          "p1" 600 600 with angVel := 1 } 0
      (Sim.BALANCE_KP * Sim.AIR_BALANCE_MULT) (Sim.BALANCE_KD * Sim.AIR_BALANCE_MULT)
      Sim.BALANCE_MAX_TORQUE = -8 ∧
    (Sim.movementStage ⟨fun _ => 0, fun _ => 1, fun _ _ => 1, fun _ _ => 0, 3⟩
        ⟨false, false, false, none, none⟩
        (some ⟨false, false, false, none, none, 0, false⟩) (1 / 60)
        { Sim.mkPlayerSim ⟨fun _ => 0, fun _ => 1, fun _ _ => 1, fun _ _ => 0, 3⟩
            "p1" 600 600 with angVel := 1 }).torque =
      ({ Sim.mkPlayerSim ⟨fun _ => 0, fun _ => 1, fun _ _ => 1, fun _ _ => 0, 3⟩
          "p1" 600 600 with angVel := 1 } : Sim.PlayerSimState).torque := by
  refine ⟨⟨rfl, rfl, rfl⟩, ?_, ?_⟩
  · norm_num [Sim.computePDTorqueWrapped, wrapRadPi, clamp, Sim.mkPlayerSim,
      Sim.BALANCE_KP, Sim.BALANCE_KD, Sim.BALANCE_MAX_TORQUE, Sim.AIR_BALANCE_MULT]
  · simp [Sim.movementStage, Sim.mkPlayerSim, Sim.TILT_ENABLED, Sim.balanceTail,
      Sim.resetTiltState]

/-- C7 amended: the auto-balance branch runs only when the player is
grounded, not tilting and not dragging, and then adds the clamped PD torque
toward target angle 0 with full gains; while airborne no balance torque is
applied at all (the air multiplier is dead code in the operative
revision). -/
theorem C7_balance_amended (t : Trig) (env : Sim.WorldEnv) (i : Sim.InputMsg)
    (fixedDt : ℚ) (s : Sim.PlayerSimState)
    (hdrag : s.isDragging = false) (htilt0 : s.prevTiltDir = 0)
    (hl : i.tiltLeft = false) (hr : i.tiltRight = false) :
    (s.touchingGround = true →
      (Sim.movementStage t env (some i) fixedDt s).torque =
        s.torque + Sim.computePDTorqueWrapped t s 0 Sim.BALANCE_KP Sim.BALANCE_KD
          Sim.BALANCE_MAX_TORQUE) ∧
    (s.touchingGround = false →
      (Sim.movementStage t env (some i) fixedDt s).torque = s.torque) := by
  constructor
  · intro hg
    simp [Sim.movementStage, hdrag, hl, hr, htilt0, hg, Sim.TILT_ENABLED,
      Sim.balanceTail]
  · intro hg
    simp [Sim.movementStage, hdrag, hl, hr, htilt0, hg, Sim.TILT_ENABLED,
      Sim.balanceTail, Sim.resetTiltState]

/-- C7 amended witness: a grounded upright player with spin 1 gets the
derivative correction -200 added to its torque in one tick. -/
theorem C7_balance_amended_witness :
    (({ Sim.mkPlayerSim ⟨fun _ => 0, fun _ => 1, fun _ _ => 1, fun _ _ => 0, 3⟩
          "p1" 600 600 with touchingGround := true, angVel := 1 } :
        Sim.PlayerSimState).isDragging = false ∧
      ({ Sim.mkPlayerSim ⟨fun _ => 0, fun _ => 1, fun _ _ => 1, fun _ _ => 0, 3⟩
          "p1" 600 600 with touchingGround := true, angVel := 1 } :
        Sim.PlayerSimState).prevTiltDir = 0) ∧
    (Sim.movementStage ⟨fun _ => 0, fun _ => 1, fun _ _ => 1, fun _ _ => 0, 3⟩
        ⟨false, false, false, none, none⟩
        (some ⟨false, false, false, none, none, 0, false⟩) (1 / 60)
        { Sim.mkPlayerSim ⟨fun _ => 0, fun _ => 1, fun _ _ => 1, fun _ _ => 0, 3⟩
            "p1" 600 600 with touchingGround := true, angVel := 1 }).torque = -200 := by
  have h := C7_balance_amended ⟨fun _ => 0, fun _ => 1, fun _ _ => 1, fun _ _ => 0, 3⟩
    ⟨false, false, false, none, none⟩ ⟨false, false, false, none, none, 0, false⟩
    (1 / 60)
    { Sim.mkPlayerSim ⟨fun _ => 0, fun _ => 1, fun _ _ => 1, fun _ _ => 0, 3⟩
        "p1" 600 600 with touchingGround := true, angVel := 1 }
    rfl rfl rfl rfl
  refine ⟨⟨rfl, rfl⟩, ?_⟩
  rw [h.1 rfl]
  norm_num [Sim.computePDTorqueWrapped, wrapRadPi, clamp, Sim.mkPlayerSim,
    Sim.BALANCE_KP, Sim.BALANCE_KD, Sim.BALANCE_MAX_TORQUE]

end GameDev
